import Mathlib

/-!
# AgenticSkeleton — formal verification of the core pipeline

A shallow embedding, in Lean 4, of the classification → retrieval → prompt
assembly → mock synthesis pipeline of the AgenticSkeleton repository, together
with theorems settling the specification claims about it.

Text is modelled as `String` (a packed `List Char`); the Python string
primitives used by the code (`str.lower`, `str.strip`, `str.split`,
substring tests via `in`, `str.replace`) are re-implemented below on the
underlying character lists, restricted to ASCII as all pattern tables of the
repository are ASCII.
-/

namespace AgenticSkeleton

/-! ## String primitives -/

/-- ASCII lower-casing of a character, as Python `str.lower` acts on ASCII. -/
def lowCh : Char → Char
  | 'A' => 'a'
  | 'B' => 'b'
  | 'C' => 'c'
  | 'D' => 'd'
  | 'E' => 'e'
  | 'F' => 'f'
  | 'G' => 'g'
  | 'H' => 'h'
  | 'I' => 'i'
  | 'J' => 'j'
  | 'K' => 'k'
  | 'L' => 'l'
  | 'M' => 'm'
  | 'N' => 'n'
  | 'O' => 'o'
  | 'P' => 'p'
  | 'Q' => 'q'
  | 'R' => 'r'
  | 'S' => 's'
  | 'T' => 't'
  | 'U' => 'u'
  | 'V' => 'v'
  | 'W' => 'w'
  | 'X' => 'x'
  | 'Y' => 'y'
  | 'Z' => 'z'
  | c => c

/-- Lower-case a string (Python `str.lower`, ASCII fragment). -/
def lowerStr (s : String) : String := ⟨s.data.map lowCh⟩

/-- Upper-casing of a character (Python `str.upper`, ASCII fragment). -/
def upCh : Char → Char
  | 'a' => 'A'
  | 'b' => 'B'
  | 'c' => 'C'
  | 'd' => 'D'
  | 'e' => 'E'
  | 'f' => 'F'
  | 'g' => 'G'
  | 'h' => 'H'
  | 'i' => 'I'
  | 'j' => 'J'
  | 'k' => 'K'
  | 'l' => 'L'
  | 'm' => 'M'
  | 'n' => 'N'
  | 'o' => 'O'
  | 'p' => 'P'
  | 'q' => 'Q'
  | 'r' => 'R'
  | 's' => 'S'
  | 't' => 'T'
  | 'u' => 'U'
  | 'v' => 'V'
  | 'w' => 'W'
  | 'x' => 'X'
  | 'y' => 'Y'
  | 'z' => 'Z'
  | c => c

/-- Upper-case a string (Python `str.upper`, ASCII fragment). -/
def upperStr (s : String) : String := ⟨s.data.map upCh⟩

/-- The whitespace characters recognised by Python `str.split()` / `str.strip()`
(ASCII fragment). -/
def isWs (c : Char) : Bool :=
  c == ' ' || c == '\t' || c == '\n' || c == '\r'

/-- Python `str.strip()`: drop leading and trailing whitespace. -/
def stripStr (s : String) : String :=
  ⟨((s.data.dropWhile isWs).reverse.dropWhile isWs).reverse⟩

/-- Is `p` a (list) prefix of `l`? -/
def prefixOfL (p l : List Char) : Bool :=
  match p, l with
  | [], _ => true
  | _ :: _, [] => false
  | a :: as, b :: bs => a == b && prefixOfL as bs

/-- Is `p` a contiguous sublist of `l`? -/
def infixOfL (p l : List Char) : Bool :=
  match l with
  | [] => prefixOfL p []
  | _ :: cs => prefixOfL p l || infixOfL p cs

/-- Python `pat in s` substring test. -/
def containsStr (s pat : String) : Bool := infixOfL pat.data s.data

/-- Accumulator-based splitting on whitespace; `cur` holds the reversed
current word. -/
def splitWsAux (cur : List Char) : List Char → List (List Char)
  | [] => if cur.isEmpty then [] else [cur.reverse]
  | c :: cs =>
      if isWs c then
        if cur.isEmpty then splitWsAux [] cs else cur.reverse :: splitWsAux [] cs
      else
        splitWsAux (c :: cur) cs

/-- Python `str.split()` (no argument): split on whitespace runs, dropping
empty pieces. -/
def splitWs (s : String) : List String :=
  (splitWsAux [] s.data).map (fun l => ⟨l⟩)

/-- Replace every (non-overlapping, leftmost) occurrence of the pattern
`p :: ps` by `rep`, as Python `str.replace` does. The extra fuel argument,
initialised to the length of the scanned list, keeps the recursion structural;
every recursive call removes at least one list element per unit of fuel, so
the fuel never runs out. -/
def replaceFromAux (p : Char) (ps rep : List Char) : Nat → List Char → List Char
  | 0, l => l
  | _ + 1, [] => []
  | fuel + 1, c :: cs =>
      if c == p && prefixOfL ps cs then
        rep ++ replaceFromAux p ps rep fuel (cs.drop ps.length)
      else
        c :: replaceFromAux p ps rep fuel cs

/-- Python `s.replace(pat, rep)` (for nonempty `pat`; an empty pattern leaves
the string unchanged, a case never used by the code). -/
def replaceStr (s pat rep : String) : String :=
  match pat.data with
  | [] => s
  | p :: ps => ⟨replaceFromAux p ps rep.data s.data.length s.data⟩

/-- Python `sep.join(parts)`. -/
def joinSep (sep : String) : List String → String
  | [] => ""
  | [x] => x
  | x :: y :: rest => x ++ sep ++ joinSep sep (y :: rest)

/-! ## `core/prompt_engineering.py` — keyword extraction -/

namespace PromptEngineering

/-- A word character for the regex `[^\w\s]` (ASCII fragment of Python `\w`):
a letter, a digit, or an underscore. -/
def isWordCh (c : Char) : Bool := c.isAlphanum || c == '_'

/-- Model of the regex substitution re.sub with pattern `[^\w\s]` and a space
replacement: replace every character that is neither a word character nor
whitespace by a space. -/
def stripPunct (s : String) : String :=
  ⟨s.data.map (fun c => if isWordCh c || isWs c then c else ' ')⟩

/-- The fixed stop-word set of `extract_keywords_simple`. -/
def stop_words : List String :=
  ["a", "an", "the", "and", "or", "but", "is", "are", "was",
   "were", "be", "been", "being", "in", "on", "at", "to", "for",
   "with", "about", "me", "my", "i", "it", "its", "of", "that", "this"]

/-- Function `extract_keywords_simple` of `core/prompt_engineering.py`: lower-case,
strip punctuation, split on whitespace, drop stop words and tokens of length
at most 2, and return the first `num_keywords` remaining tokens. -/
def extract_keywords_simple (text : String) (num_keywords : Nat) : List String :=
  if text = "" then []
  else
    let cleaned_text := stripPunct (lowerStr text)
    let words := splitWs cleaned_text
    let filtered_words :=
      words.filter (fun w => ¬ stop_words.contains w ∧ w.data.length > 2)
    filtered_words.take num_keywords

/-- Deduplication preserving first-occurrence order, with an accumulator of
the values already seen. -/
def dedupFirstAux (seen : List String) : List String → List String
  | [] => []
  | x :: xs =>
      if seen.contains x then dedupFirstAux seen xs
      else x :: dedupFirstAux (x :: seen) xs

/-- Deduplication preserving first-occurrence order. -/
def dedupFirst (l : List String) : List String := dedupFirstAux [] l

/-- The keyword extractor as the claim describes it: lower-case, strip
punctuation, tokenize on word boundaries, remove the stop-word set and tokens
of length at most 2, deduplicate preserving first-occurrence order, and return
the first `n` tokens. -/
def extract_keywords_claimed (text : String) (n : Nat) : List String :=
  (dedupFirst ((splitWs (stripPunct (lowerStr text))).filter
    (fun w => ¬ stop_words.contains w ∧ w.data.length > 2))).take n

/-- The keyword extractor as amended: identical to the claim except that the
remaining tokens are not deduplicated. -/
def extract_keywords_amended (text : String) (n : Nat) : List String :=
  ((splitWs (stripPunct (lowerStr text))).filter
    (fun w => ¬ stop_words.contains w ∧ w.data.length > 2)).take n

end PromptEngineering

/-! ## `core/rag.py` and `core/models.py` — knowledge base and retrieval -/

namespace Rag

/-- A knowledge-base entry (`RagEntry` of `core/models.py`, also the shape of
the `MOCK_RAG_DB` topic values in `config/settings.py`). -/
structure RagEntry where
  keywords : List String
  context : String
  offers : List String
  tips : List String
  related_docs : List String
deriving DecidableEq, Repr

/-- A knowledge base: topics with their entries, in table order (Python dicts
preserve insertion order). -/
abbrev RagDb := List (String × RagEntry)

/-- Keyword normalisation used by `lookup`: `kw.lower().strip()`. -/
def normKw (kw : String) : String := stripStr (lowerStr kw)

/-- The processed input keywords of `lookup`: the normalised nonempty ones
(set semantics is only ever used through membership below). -/
def processedKeywords (keywords : List String) : List String :=
  (keywords.filter (fun kw => kw ≠ "")).map normKw

/-- A topic entry matches when the processed input keywords intersect its
normalised stored keywords. -/
def entryMatches (processed : List String) (e : RagEntry) : Bool :=
  processed.any (fun k => (e.keywords.map normKw).contains k)

/-- Accumulate the matched topics in table order, visiting each matched topic
once (the dict-keyed accumulation of `lookup`). -/
def matchedAux (f : RagEntry → Bool) (seen : List String) : RagDb → RagDb
  | [] => []
  | (t, e) :: rest =>
      if seen.contains t then matchedAux f seen rest
      else if f e then (t, e) :: matchedAux f (t :: seen) rest
      else matchedAux f seen rest

/-- The topics of the knowledge base matched by the given keywords, in table
order, under the exact-intersection matching of `rag.lookup`. -/
def matchedEntries (keywords : List String) (db : RagDb) : RagDb :=
  matchedAux (entryMatches (processedKeywords keywords)) [] db

/-- Per-topic truncation limit as a function of the matched-topic count:
`None` (take all) for at most one topic, 2 for two topics, 1 for three or
more. -/
def limitFor (numMatched : Nat) : Option Nat :=
  if numMatched == 2 then some 2
  else if numMatched ≥ 3 then some 1
  else none

/-- Python slicing `l[:limit]` where `limit` may be `None` (take all). -/
def takeLim (lim : Option Nat) (l : List String) : List String :=
  match lim with
  | none => l
  | some k => l.take k

/-- The dictionary shape returned by `RagResult.to_dict` of `core/rag.py`:
contexts joined into a single string, flat offer, tip and document lists. -/
structure RagLookupResult where
  context : String
  offers : List String
  tips : List String
  related_docs : List String
deriving DecidableEq, Repr

/-- Function `lookup` of `core/rag.py`: match topics by normalised keyword
intersection, then collect context in full and offers, tips and related
documents truncated per topic by `limitFor` of the matched-topic count. -/
def lookup (keywords : List String) (db : RagDb) : RagLookupResult :=
  if db.isEmpty then ⟨"", [], [], []⟩
  else if keywords.isEmpty then ⟨"", [], [], []⟩
  else
    let matched := matchedEntries keywords db
    let lim := limitFor matched.length
    { context := joinSep "\n" ((matched.map (fun te => te.2.context)).filter (fun c => c ≠ ""))
      offers := matched.flatMap (fun te => takeLim lim te.2.offers)
      tips := matched.flatMap (fun te => takeLim lim te.2.tips)
      related_docs := matched.flatMap (fun te => takeLim lim te.2.related_docs) }

/-- Retrieval result shape `RagResult` of `core/models.py`: combined context
string, offers and related documents grouped by topic, matched-topic list. -/
structure RagResult where
  rag_context : String
  offers_by_topic : List (String × List String)
  docs_by_topic : List (String × List String)
  matched_topics : List String
deriving DecidableEq, Repr

/-- The sentinel combined-context value used when retrieval matches nothing
(pinned by `tests/test_rag_mock.py` and read by `format_prompt_pqr`). -/
def NO_CONTEXT : String := "No specific context found."

/-- Substring matching of the specification: an input keyword matches a stored
keyword when it is a substring of (or equals) it, case-insensitively. -/
def entryMatchesModel (processed : List String) (e : RagEntry) : Bool :=
  processed.any (fun k => e.keywords.any (fun dbkw => containsStr (stripStr (lowerStr dbkw)) k))

/-- The trailing merged tips block of the combined context. -/
def tipsBlock (matched : RagDb) : String :=
  let tips := matched.flatMap (fun te => te.2.tips)
  if tips.isEmpty then ""
  else "\n\nRelevant Tips for Context:\n" ++ joinSep "\n" (tips.map (fun t => "- " ++ t))

/-- Modelled from the spec: the `RagResult`-returning retriever `rag.lookup`
used by `prompt_processor.py` and pinned by `tests/test_rag_mock.py` is
missing from the sources (the `rag.py` present returns the flat dictionary
shape above). Per spec section 4.5 a topic matches when any input keyword is
a substring of, or equals, any of its stored keywords (case-insensitive);
topics are deduplicated in first-match table order; with no match the result
is the sentinel combined context with empty list and maps; otherwise the
combined context aggregates every matched topic labelled in table order with
the tips merged into one trailing block, and the offers and related documents
are grouped by topic in full. -/
def lookupModel (keywords : List String) (db : RagDb) : RagResult :=
  let matched := matchedAux (entryMatchesModel (processedKeywords keywords)) [] db
  if matched.isEmpty then
    { rag_context := NO_CONTEXT, offers_by_topic := [], docs_by_topic := [], matched_topics := [] }
  else
    { rag_context :=
        joinSep "\n\n" (matched.map (fun te => "Topic: " ++ te.1 ++ "\nContext: " ++ te.2.context))
          ++ tipsBlock matched
      offers_by_topic := matched.map (fun te => (te.1, te.2.offers))
      docs_by_topic := matched.map (fun te => (te.1, te.2.related_docs))
      matched_topics := matched.map (fun te => te.1) }

/-- The minimal fallback test knowledge base embedded in `core/rag.py`
(its direct-execution block). -/
def testDb : RagDb :=
  [("topic1",
    { keywords := ["one", "alpha"]
      context := "Context for topic one."
      offers := ["Offer 1a", "Offer 1b", "Offer 1c"]
      tips := ["Tip 1a", "Tip 1b"]
      related_docs := ["Doc 1a"] }),
   ("topic2",
    { keywords := ["two", "beta"]
      context := "Context for topic two."
      offers := ["Offer 2a", "Offer 2b"]
      tips := ["Tip 2a", "Tip 2b", "Tip 2c"]
      related_docs := ["Doc 2a", "Doc 2b"] }),
   ("topic3",
    { keywords := ["three", "gamma"]
      context := "Context for topic three."
      offers := ["Offer 3a"]
      tips := ["Tip 3a"]
      related_docs := ["Doc 3a", "Doc 3b", "Doc 3c"] }),
   ("topic4",
    { keywords := ["four", "delta"]
      context := "Context for topic four."
      offers := ["Offer 4a", "Offer 4b"]
      tips := ["Tip 4a"]
      related_docs := ["Doc 4a", "Doc 4b"] })]

end Rag

/-! ## Association-list access for Python dict literals -/

/-- Python `d.get(k)` on an association list. -/
def alistGet {α : Type} (d : List (String × α)) (k : String) : Option α :=
  (d.find? (fun kv => kv.1 == k)).map (fun kv => kv.2)

/-- Python `d.get(k, dflt)` on an association list. -/
def alistGetD {α : Type} (d : List (String × α)) (k : String) (dflt : α) : α :=
  (alistGet d k).getD dflt

/-! ## `config/settings.py` — skill tables, persona, restrictions -/

namespace Settings

/-- A configuration value of the skill-parameter dictionaries: a string, a
one-decimal temperature stored as tenths (0.7 becomes q 7 — the table holds
only exact one-decimal values), or a natural number. -/
inductive PVal where
  | s (v : String)
  | q (tenths : Nat)
  | n (v : Nat)
deriving DecidableEq, Repr

/-- Tuple `SKILL_LEVELS` of `config/settings.py`. -/
def SKILL_LEVELS : List String :=
  ["BEGINNER", "INTERMEDIATE", "EXPERT", "BANK_AMBASSADOR_TRAINEE"]

/-- Table `SKILL_PARAMS` of `config/settings.py`, with each per-level dict as
an ordered key/value list. -/
def SKILL_PARAMS : List (String × List (String × PVal)) :=
  [("BEGINNER",
    [("system_prompt_addon",
      PVal.s "Explain concepts simply, provide step-by-step guidance, and define banking terms."),
     ("temperature", PVal.q 7),
     ("max_tokens", PVal.n 500)]),
   ("INTERMEDIATE",
    [("system_prompt_addon",
      PVal.s "Assume some familiarity with banking concepts. Focus on practical application and cross-service connections."),
     ("temperature", PVal.q 5),
     ("max_tokens", PVal.n 450)]),
   ("EXPERT",
    [("system_prompt_addon",
      PVal.s "Provide concise, expert-level insights. Focus on strategic value and advanced integration points."),
     ("temperature", PVal.q 3),
     ("max_tokens", PVal.n 400)]),
   ("BANK_AMBASSADOR_TRAINEE",
    [("system_prompt_addon",
      PVal.s "Focus on the basics of bank services and how to talk about them simply. Encourage asking questions."),
     ("temperature", PVal.q 8),
     ("max_tokens", PVal.n 550)])]

/-- Constant `DEFAULT_PERSONA` of `config/settings.py`. -/
def DEFAULT_PERSONA : String :=
  "You are a helpful Internal Banking Advisor, dedicated to helping colleagues understand and promote the bank\x27s diverse range of services to foster collaboration and ambassadorship."

/-- Constant `RESTRICTIONS_TEMPLATE` of `config/settings.py` (a triple-quoted
string opening and closing with a newline). -/
def RESTRICTIONS_TEMPLATE : String :=
  "\nRestrictions:\n- Prioritize mentioning relevant internal bank services and products.\n- Identify potential opportunities for colleagues to act as brand ambassadors for the services discussed.\n- Frame answers to encourage collaboration between different bank departments or teams.\n- Maintain a positive, professional, and encouraging tone.\n- Do not provide external financial advice or competitor comparisons unless specifically asked and framed internally.\n- If discussing [topic], ensure alignment with the bank\x27s official messaging on that service.\n"

/-- A mock user profile: a name and an optional declared skill level
(`MOCK_USER_PROFILES` values in `config/settings.py`). -/
structure Profile where
  name : String
  skill_level : Option String
deriving DecidableEq, Repr

/-- Table `MOCK_USER_PROFILES` of `config/settings.py`. -/
def MOCK_USER_PROFILES : List (String × Profile) :=
  [("user001", { name := "Alice", skill_level := some "INTERMEDIATE" }),
   ("user002", { name := "Bob", skill_level := some "BEGINNER" }),
   ("user003", { name := "Charlie", skill_level := none }),
   ("user005", { name := "Eve", skill_level := some "EXPERT" })]

end Settings

/-! ## `core/user_profile.py` and skill parameters -/

namespace UserProfile

open Settings

/-- Constant `DEFAULT_SKILL_LEVEL` of `core/user_profile.py`. -/
def DEFAULT_SKILL_LEVEL : String := "BEGINNER"

/-- Function `get_user_skill_level` of `core/user_profile.py`: empty id,
unknown id, absent or empty tier, and tier whose upper-cased stripped form is
not a declared level all default to BEGINNER; otherwise the normalised tier
is returned. -/
def get_user_skill_level (user_id : String) : String :=
  if user_id = "" then DEFAULT_SKILL_LEVEL
  else
    match alistGet MOCK_USER_PROFILES user_id with
    | none => DEFAULT_SKILL_LEVEL
    | some user_profile =>
        match user_profile.skill_level with
        | none => DEFAULT_SKILL_LEVEL
        | some skill_level =>
            if skill_level = "" then DEFAULT_SKILL_LEVEL
            else
              let normalized_skill := stripStr (upperStr skill_level)
              if SKILL_LEVELS.contains normalized_skill then normalized_skill
              else DEFAULT_SKILL_LEVEL

/-- Function `get_skill_based_params` of `core/prompt_engineering.py`: strip
and upper-case the level; return its `SKILL_PARAMS` entry when declared, else
the BEGINNER entry. -/
def get_skill_based_params (skill_level : String) : List (String × PVal) :=
  let cleaned_skill_level := if skill_level = "" then "" else upperStr (stripStr skill_level)
  if SKILL_LEVELS.contains cleaned_skill_level then
    alistGetD SKILL_PARAMS cleaned_skill_level []
  else
    alistGetD SKILL_PARAMS "BEGINNER" []

/-- The exposed `resolve_skill` operation: the composition the pipeline
performs in `process_prompt_request` (steps 1 and 4). -/
def resolve_skill (user_id : String) : List (String × PVal) :=
  get_skill_based_params (get_user_skill_level user_id)

/-- The pipeline read of the key skill_level_addon from the skill parameters
in `process_prompt_request`, defaulting to the empty string. -/
def readSkillAddon (params : List (String × PVal)) : String :=
  match alistGet params "skill_level_addon" with
  | some (PVal.s v) => v
  | _ => ""

end UserProfile

/-! ## `core/prompt_engineering.py` — PQR prompt assembly -/

namespace PromptEngineering

open Settings Rag

/-- Function `format_prompt_pqr` of `core/prompt_engineering.py`. Optional
`persona` and `restrictions_template` arguments are modelled as strings with
the empty string standing for Python `None` (both are falsy, replaced by the
settings defaults). -/
def format_prompt_pqr (user_prompt skill_level_addon : String) (rag_result : RagResult)
    (persona restrictions_template : String) : String × String :=
  let persona := if persona = "" then DEFAULT_PERSONA else persona
  let restrictions_template :=
    if restrictions_template = "" then RESTRICTIONS_TEMPLATE else restrictions_template
  let primary_topic := rag_result.matched_topics.headD "general banking"
  let formatted_restrictions := replaceStr restrictions_template "[topic]" primary_topic
  let system_prompt_parts :=
    [persona]
    ++ (if skill_level_addon ≠ "" then
          ["\n--- Skill Level Guidance ---", skill_level_addon]
        else [])
    ++ (if rag_result.rag_context ≠ "" ∧ rag_result.rag_context ≠ NO_CONTEXT then
          ["\n--- Relevant Context ---", rag_result.rag_context,
           "Use the context above to inform your response."]
        else [])
    ++ ["\n--- Restrictions ---", formatted_restrictions]
  (joinSep "\n" (system_prompt_parts.filter (fun p => p ≠ "")), user_prompt)

/-- The claimed PQR assembly: persona, the skill-guidance block exactly when
the fragment is nonempty, the context block with its single use-this-context
instruction exactly when the retrieval result is non-sentinel, and the
restrictions block always, with the topic placeholder replaced by the first
matched topic name or the generic phrase. -/
def pqr_claim_assembly (skill_level_addon : String) (rag_result : RagResult)
    (persona restrictions_template : String) : String :=
  let persona := if persona = "" then DEFAULT_PERSONA else persona
  let restrictions_template :=
    if restrictions_template = "" then RESTRICTIONS_TEMPLATE else restrictions_template
  let topic := rag_result.matched_topics.headD "general banking"
  let blocks :=
    [persona]
    ++ (if skill_level_addon ≠ "" then
          ["\n--- Skill Level Guidance ---", skill_level_addon]
        else [])
    ++ (if rag_result.rag_context ≠ NO_CONTEXT then
          ["\n--- Relevant Context ---", rag_result.rag_context,
           "Use the context above to inform your response."]
        else [])
    ++ ["\n--- Restrictions ---", replaceStr restrictions_template "[topic]" topic]
  joinSep "\n" (blocks.filter (fun p => p ≠ ""))

end PromptEngineering

/-! ## `core/azure/classifier.py` and `core/mock/classifier.py` -/

namespace Classifier

/-- The azure-side classifier table (`request_classifiers` in
`core/azure/classifier.py`), in declared order. -/
def azure_request_classifiers : List (String × List String) :=
  [("data-science",
    ["machine learning", "ml model", "predictive model", "data mining",
     "train model", "neural network", "clustering", "classification algorithm",
     "regression", "feature engineering", "data preprocessing", "dataset",
     "predict", "forecasting", "ai model", "customer churn", "nlp", "train"]),
   ("analyze",
    ["analyze", "analysis", "evaluate", "assess", "review", "study",
     "research", "compare", "investigate", "examine", "trends", "patterns",
     "market analysis", "competitive analysis", "impact", "implications"]),
   ("design",
    ["design", "wireframe", "sketch", "mock up", "prototype", "ui", "ux",
     "user interface", "user experience", "layout", "visual", "graphics",
     "augmented reality interface", "ar", "vr", "user flow", "design system"]),
   ("write",
    ["write", "draft", "blog", "article", "post", "essay", "content",
     "copywriting", "script", "document", "report", "whitepaper", "create content"]),
   ("develop",
    ["develop", "build", "implement", "code", "program",
     "website", "backend", "frontend", "software", "function", "class",
     "module", "database", "rest api", "web interface", "responsive"])]

/-- The mock-side classifier table (`request_classifiers` in
`core/mock/classifier.py`): identical except that the develop patterns stop
at rest api. -/
def mock_request_classifiers : List (String × List String) :=
  [("data-science",
    ["machine learning", "ml model", "predictive model", "data mining",
     "train model", "neural network", "clustering", "classification algorithm",
     "regression", "feature engineering", "data preprocessing", "dataset",
     "predict", "forecasting", "ai model", "customer churn", "nlp", "train"]),
   ("analyze",
    ["analyze", "analysis", "evaluate", "assess", "review", "study",
     "research", "compare", "investigate", "examine", "trends", "patterns",
     "market analysis", "competitive analysis", "impact", "implications"]),
   ("design",
    ["design", "wireframe", "sketch", "mock up", "prototype", "ui", "ux",
     "user interface", "user experience", "layout", "visual", "graphics",
     "augmented reality interface", "ar", "vr", "user flow", "design system"]),
   ("write",
    ["write", "draft", "blog", "article", "post", "essay", "content",
     "copywriting", "script", "document", "report", "whitepaper", "create content"]),
   ("develop",
    ["develop", "build", "implement", "code", "program",
     "website", "backend", "frontend", "software", "function", "class",
     "module", "database", "rest api"])]

/-- The scale-indicator phrases of the complex-task check (identical in both
classifier modules). -/
def complex_terms : List String :=
  ["comprehensive plan", "end-to-end", "full stack", "multi-phase",
   "platform", "ecosystem", "integrated system", "launch"]

/-- Number of patterns of a category found in the lowered request. -/
def countMatches (patterns : List String) (request_lower : String) : Nat :=
  (patterns.filter (fun p => containsStr request_lower p)).length

/-- Function `classify_request`, common to `core/azure/classifier.py` and
`core/mock/classifier.py` up to the classifier table. -/
def classify_request_with (classifiers : List (String × List String))
    (user_request : String) : String :=
  let request_lower := lowerStr user_request
  let explicit_complex_task :=
    complex_terms.any (fun t => containsStr request_lower t)
      && decide ((splitWs request_lower).length > 15)
  let domain_matches :=
    (classifiers.map (fun c => (c.1, countMatches c.2 request_lower))).filter
      (fun x => decide (0 < x.2))
  if explicit_complex_task || decide (1 < domain_matches.length) then
    match domain_matches with
    | [] => "data-science"
    | x :: xs => (xs.foldl (fun best y => if y.2 > best.2 then y else best) x).1
  else
    match domain_matches with
    | [] => "default"
    | x :: _ => x.1

/-- Azure-side `classify_request`. -/
def azure_classify_request (user_request : String) : String :=
  classify_request_with azure_request_classifiers user_request

/-- Mock-side `classify_request`. -/
def mock_classify_request (user_request : String) : String :=
  classify_request_with mock_request_classifiers user_request

/-- Classification as the claim describes it: complex exactly when a
scale-indicator phrase is present and the text has more than 15 words, or
more than one category has a nonzero count; a complex request resolves to the
first declared category of highest count, or to the designated data-science
category when no category matched; a non-complex request resolves to the
first declared category with a nonzero count, else the default category. -/
def classify_claim (classifiers : List (String × List String)) (text : String) : String :=
  let nonzero :=
    (classifiers.map (fun c => (c.1, countMatches c.2 (lowerStr text)))).filter
      (fun x => decide (0 < x.2))
  let scale_present := complex_terms.any (fun t => containsStr (lowerStr text) t)
  let complex := (scale_present ∧ (splitWs text).length > 15) ∨ 1 < nonzero.length
  if complex then
    let highest := (nonzero.map (fun x => x.2)).foldl max 0
    match nonzero.find? (fun x => x.2 == highest) with
    | some x => x.1
    | none => "data-science"
  else
    match nonzero.head? with
    | some x => x.1
    | none => "default"

end Classifier

/-! ## `core/azure/classifier.py` — domain specialization and subtasks -/

namespace Domain

/-- A specialized-domain table row of `detect_domain_specialization`. -/
structure DomainSpec where
  keywords : List String
  subtasks : List (String × List String)
  guidance : String
  preferred_category : String
deriving DecidableEq, Repr

/-- The detected-domain dictionary built by `detect_domain_specialization`
(the empty Python dict is modelled as `Option.none` at use sites). -/
structure DomainInfo where
  name : String
  matched_keyword : String
  subtasks : List (String × List String)
  guidance : String
  preferred_category : String
deriving DecidableEq, Repr

/-- Table `specialized_domains` of `core/azure/classifier.py`, in declared
order. -/
def azure_specialized_domains : List (String × DomainSpec) :=
  [("cloud_computing",
    { keywords :=
        ["cloud platform", "microsoft azure", "aws", "amazon web services",
         "google cloud", "azure", "cloud computing", "cloud infrastructure",
         "cloud services", "cloud migration", "cloud native", "serverless",
         "multi-region", "cloud costs", "cloud deployment"]
      subtasks :=
        [("research", ["research", "analyze", "compare", "evaluate", "assess", "study", "investigate"]),
         ("implement", ["implement", "deploy", "build", "create", "construct", "develop", "integrate"]),
         ("optimize", ["optimize", "improve", "enhance", "refine", "streamline", "tune", "refactor", "costs"])]
      guidance := "Focus on cloud architecture best practices, cost optimization, and security considerations. Include relevant service names and deployment patterns."
      preferred_category := "develop" }),
   ("ai_ml",
    { keywords :=
        ["artificial intelligence", "machine learning", "neural network", "deep learning",
         "nlp", "natural language processing", "computer vision", "predictive model",
         "data science", "ai model", "ml pipeline", "generative ai", "large language model", "ai"]
      subtasks :=
        [("research", ["research", "analyze", "compare", "evaluate", "assess", "study", "investigate", "impact"]),
         ("data", ["data", "collect", "preprocess", "clean", "prepare", "gather", "dataset"]),
         ("model", ["model", "train", "develop", "build", "create", "implement", "design"]),
         ("deploy", ["deploy", "implement", "integrate", "release", "publish", "operationalize", "serve"]),
         ("impact", ["impact", "effect", "influence", "outcome", "result"])]
      guidance := "Incorporate ML/AI best practices including data preprocessing, model selection criteria, evaluation metrics, and deployment considerations."
      preferred_category := "data-science" }),
   ("healthcare_tech",
    { keywords :=
        ["healthcare", "medical", "health informatics", "clinical", "patient care",
         "telehealth", "health monitoring", "medical imaging", "healthcare ai",
         "medical technology", "health records", "ehr", "remote patient monitoring",
         "patient outcomes", "medical diagnosis"]
      subtasks :=
        [("research", ["research", "analyze", "investigate", "evaluate", "assess", "study", "review", "impact"]),
         ("design", ["design", "architect", "plan", "blueprint", "outline", "framework", "structure"]),
         ("implement", ["implement", "develop", "build", "create", "construct", "deploy", "integrate"]),
         ("evaluate", ["evaluate", "assess", "measure", "analyze", "test", "validate", "verify"]),
         ("impact", ["impact", "effect", "influence", "affect", "outcome"])]
      guidance := "Address healthcare-specific concerns including regulatory compliance (HIPAA, GDPR), clinical workflows, and patient data privacy."
      preferred_category := "analyze" })]

/-- Function `detect_domain_specialization` of `core/azure/classifier.py`: the
first domain in table order with a keyword contained in the lowered request
wins; its first matching keyword is recorded. -/
def detect_domain_specialization (user_request : String) : Option DomainInfo :=
  let request_lower := lowerStr user_request
  match azure_specialized_domains.find?
      (fun d => d.2.keywords.any (fun kw => containsStr request_lower kw)) with
  | some (domain_name, domain_data) =>
      some
        { name := domain_name
          matched_keyword :=
            (domain_data.keywords.find? (fun kw => containsStr request_lower kw)).getD
              (domain_data.keywords.headD "")
          subtasks := domain_data.subtasks
          guidance := domain_data.guidance
          preferred_category := domain_data.preferred_category }
  | none => none

/-- Table `generic_subtasks` of the azure `classify_subtask`, in declared
order. -/
def generic_subtasks : List (String × List String) :=
  [("document", ["document", "write documentation", "create documentation", "documentation"]),
   ("research", ["research", "analyze", "study", "investigate", "explore", "examine", "review", "collect"]),
   ("implement", ["implement", "build", "create", "develop", "code", "program", "construct"]),
   ("design", ["design", "architect", "plan", "outline", "sketch", "wireframe", "draft"]),
   ("evaluate", ["evaluate", "assess", "test", "verify", "validate", "measure", "analyze"]),
   ("optimize", ["optimize", "improve", "enhance", "refine", "tune", "streamline", "refactor"])]

/-- Function `classify_subtask` of `core/azure/classifier.py`: two hard-coded
special cases, then the domain taxonomy in order, then the generic taxonomy,
then the terminal type execute. -/
def azure_classify_subtask (subtask : String) (domain_info : Option DomainInfo) : String :=
  let subtask_lower := lowerStr subtask
  if containsStr subtask_lower "document the system architecture" then "document"
  else if containsStr subtask_lower "deploy the model as a prediction api" then "deploy"
  else
    let fromDomain : Option (String × List String) :=
      match domain_info with
      | some di =>
          di.subtasks.find? (fun st => st.2.any (fun p => containsStr subtask_lower p))
      | none => none
    match fromDomain with
    | some st => st.1
    | none =>
        match generic_subtasks.find?
            (fun st => st.2.any (fun p => containsStr subtask_lower p)) with
        | some st => st.1
        | none => "execute"

/-- Function `classify_subtask` of `core/mock/classifier.py`: a fixed chain of
term checks that ignores the domain profile. -/
def mock_classify_subtask (subtask : String) (_domain_info : Option DomainInfo) : String :=
  let subtask_lower := lowerStr subtask
  if ["research", "analyze", "study", "investigate"].any
      (fun t => containsStr subtask_lower t) then "research"
  else if ["implement", "build", "code", "develop", "create"].any
      (fun t => containsStr subtask_lower t) then "develop"
  else if ["design", "sketch", "prototype"].any
      (fun t => containsStr subtask_lower t) then "design"
  else if ["write", "draft", "document"].any
      (fun t => containsStr subtask_lower t) then "write"
  else if ["train", "model", "data"].any
      (fun t => containsStr subtask_lower t) then "data-science"
  else "default"

/-- The first type of an ordered subtask taxonomy with a trigger contained in
the lowered text — the claimed domain-taxonomy-first check. -/
def taxonomyLookup (taxonomy : List (String × List String)) (subtask : String) : Option String :=
  (taxonomy.find? (fun st => st.2.any (fun p => containsStr (lowerStr subtask) p))).map
    (fun st => st.1)

/-- Azure subtask classification as amended: the two special cases first, then
the domain taxonomy, then the generic six-type taxonomy, else execute. -/
def azure_subtask_amended (subtask : String) (domain_info : Option DomainInfo) : String :=
  if containsStr (lowerStr subtask) "document the system architecture" then "document"
  else if containsStr (lowerStr subtask) "deploy the model as a prediction api" then "deploy"
  else
    match domain_info.bind (fun di => taxonomyLookup di.subtasks subtask) with
    | some ty => ty
    | none => (taxonomyLookup generic_subtasks subtask).getD "execute"

/-- Mock subtask classification as amended: an ordered chain over five fixed
term sets, ignoring the domain profile, with terminal type default. -/
def mock_subtask_amended (subtask : String) : String :=
  (taxonomyLookup
    [("research", ["research", "analyze", "study", "investigate"]),
     ("develop", ["implement", "build", "code", "develop", "create"]),
     ("design", ["design", "sketch", "prototype"]),
     ("write", ["write", "draft", "document"]),
     ("data-science", ["train", "model", "data"])] subtask).getD "default"

end Domain

/-! ## `core/azure/constants/fallback_plans.py` -/

namespace Fallback

open Domain

/-- Table `FALLBACK_PLANS` of `core/azure/constants/fallback_plans.py`. -/
def FALLBACK_PLANS : List (String × List String) :=
  [("write",
    ["Research the topic and gather relevant information",
     "Create an outline with key points and structure",
     "Draft the initial content following the outline",
     "Review and revise the content for clarity and coherence",
     "Edit for grammar, style, and formatting",
     "Prepare the final version with any necessary citations"]),
   ("analyze",
    ["Define the scope and objectives of the analysis",
     "Gather and organize relevant data and information",
     "Identify patterns, trends, and insights from the data",
     "Evaluate the findings against established criteria or benchmarks",
     "Draw conclusions based on the analysis",
     "Formulate recommendations based on the conclusions"]),
   ("develop",
    ["Gather requirements and define specifications",
     "Design the system architecture and component interactions",
     "Implement the core functionality and features",
     "Create tests to verify correctness and performance",
     "Debug issues and optimize the implementation",
     "Document the system architecture and usage instructions"]),
   ("design",
    ["Research user needs and create user personas",
     "Define information architecture and user flows",
     "Create wireframes and low-fidelity mockups",
     "Develop high-fidelity visual designs",
     "Prepare prototypes for user testing",
     "Finalize design assets and specifications"]),
   ("data-science",
    ["Define the problem statement and analysis objectives",
     "Collect and prepare the dataset for analysis",
     "Perform exploratory data analysis to understand patterns",
     "Engineer features and preprocess data for modeling",
     "Train and evaluate machine learning models",
     "Deploy the model and create a system for predictions"]),
   ("default",
    ["Research the topic and gather relevant information",
     "Analyze the key components and requirements",
     "Develop an initial solution or approach",
     "Test and validate the solution",
     "Refine and optimize based on testing results",
     "Prepare final documentation and delivery"])]

/-- Function `get_fallback_plan` of `core/azure/constants/fallback_plans.py`:
the plan of the preferred category of the domain when present in the table,
else the plan of the request category when present, else the default plan. -/
def get_fallback_plan (request_category : String) (domain_info : Option DomainInfo) : List String :=
  let viaDomain :=
    match domain_info with
    | some di => alistGet FALLBACK_PLANS di.preferred_category
    | none => none
  match viaDomain with
  | some plan => plan
  | none =>
      match alistGet FALLBACK_PLANS request_category with
      | some plan => plan
      | none => alistGetD FALLBACK_PLANS "default" []

/-- Fallback-plan resolution as the claim describes it. -/
def fallback_plan_claim (request_category : String) (domain_info : Option DomainInfo) : List String :=
  match domain_info.bind (fun di => alistGet FALLBACK_PLANS di.preferred_category) with
  | some plan => plan
  | none => (alistGet FALLBACK_PLANS request_category).getD (alistGetD FALLBACK_PLANS "default" [])

end Fallback

/-! ## `core/mock/generator.py` and its constants -/

namespace MockGen

open Classifier

/-- A domain subtask of the mock `DOMAIN_KNOWLEDGE`: trigger patterns and a
parametrized template. -/
structure MSubtask where
  patterns : List String
  template : String
deriving DecidableEq, Repr

/-- A mock knowledge domain: trigger keywords and ordered subtasks. -/
structure MDomain where
  keywords : List String
  subtasks : List (String × MSubtask)
deriving DecidableEq, Repr

/-- Table `MOCK_RESPONSES` of `core/mock/constants/mock_responses.py`. -/
def MOCK_RESPONSES : List (String × List String) :=
  [("research",
    ["[MOCK] Research complete: Found 7 recent sources on {topic} (2024-2025). Key insights: 42% increase in enterprise adoption since Q1 2024, 3 emerging applications in healthcare (telemedicine, remote monitoring, predictive diagnostics), and integration with quantum computing starting Q3 2025.",
     "[MOCK] Completed research on {topic}. Analysis of 12 academic papers shows consensus on core principles (87% agreement) but significant divergence in implementation approaches (4 competing methodologies). Latest 2025 paper suggests hybrid approach combining methods A and C.",
     "[MOCK] Research findings on {topic}: Market size reached $3.8B in Q1 2025 (27% YoY growth), projected to reach $6.2B by 2027. Identified 3 enterprise solutions (market leaders) and 5 promising open-source alternatives with active development communities."]),
   ("write",
    ["[MOCK] Draft completed for {topic}. The 850-word document covers healthcare applications of machine learning, patient data analysis, medical diagnostics, and treatment optimization. Historical context (2010-2023), current applications (2024-2025), and future trends (2026+). Includes 5 key points with supporting examples and 8 expert quotes from hospital administrators.",
     "[MOCK] Created a comprehensive overview of {topic} (1,200 words). Introduction establishes healthcare impact ($4.2B market by 2026), three main sections explore medical diagnostics, patient care, and hospital management with machine learning algorithms, with conclusion highlighting implementation roadmap for 2025-2026.",
     "[MOCK] Written content on {topic} now ready for review (950 words). Structured in problem-solution format with balanced perspective on healthcare advantages (7 identified benefits) and limitations (4 current challenges). Includes case studies from leading medical organizations implementing machine learning in 2025."]),
   ("analyze",
    ["[MOCK] Analysis shows {topic} has 3 distinct patterns: increasing artificial intelligence adoption (42% YoY in 2025), shifting job market demographics (technical professionals +23%, automation replacing manual jobs +15%), and evolving workforce needs (AI programming +40%, algorithm development +68%, traditional jobs -12%).",
     "[MOCK] Completed comparative analysis of {topic} impact on employment. AI automation outperforms in speed (32% faster) and resource usage (18% lower), changing the workforce landscape. Analysis shows job creation in AI sectors offsetting losses in manual labor. ROI analysis shows AI jobs superior for economic growth.",
     "[MOCK] Trend analysis for {topic}: Identified cyclical pattern in AI and job markets with 6-month periodicity. Artificial intelligence is transforming employment patterns with peak disruption in Q2 and Q4 (32% and 28% above baseline). Three workforce anomalies detected in 2024-2025 data, correlating with AI market disruptions. Recommend quarterly workforce review cycle with automated anomaly detection."]),
   ("develop",
    ["[MOCK] Implemented core functionality for {topic}. Created REST API for a bookstore application with 6 microservices with clean domain boundaries, 87% test coverage (unit + integration), and automated CI/CD pipeline. Book inventory database model and store CRUD operations implemented. Performance benchmarks show 250ms average response time under simulated load of 1000 concurrent users.",
     "[MOCK] Development complete for {topic}. Built RESTful API endpoints for bookstore inventory management with database model for books, authors, and store locations. Implemented CRUD operations for book catalog with HTTP GET/POST/PUT/DELETE endpoints. Architectural documentation includes entity-relationship diagrams and API specification (OpenAPI 3.0).",
     "[MOCK] Finished developing {topic} architecture. Created API server with 12 endpoints for bookstore management (inventory, customers, orders). Database schema optimized for book metadata queries and store operations. Implemented JWT authentication, input validation, and error handling. REST API response times averaging <100ms (p95) for typical book catalog operations."]),
   ("design",
    ["[MOCK] Created wireframes for {topic} interface. Includes 8 key screens with responsive layouts for desktop, tablet, and mobile. Accessibility review complete (WCAG 2.2 AAA compliance) with dark mode support and voice navigation integration.",
     "[MOCK] Completed user flow diagrams for {topic}. Optimized task completion from 12 steps to 5 steps for core journeys. Added personalization pathways based on user behavior and accessibility preferences. Compliance with 2025 EU Digital Services Act verified.",
     "[MOCK] Design system for {topic} now ready with 42 reusable components, neural-adaptive color system, typography optimized for 8 languages, and motion design principles supporting spatial computing environments. Component library published with Figma and code integration."]),
   ("data-science",
    ["[MOCK] Data preprocessing complete for {topic}: Cleaned 32,450 records (removed duplicates, handled missing values), feature engineering added 8 derived variables, and dimensional reduction applied using PCA maintaining 92% variance with 6 components.",
     "[MOCK] Model evaluation results for {topic}: Ensemble approach outperformed baseline by 37%. Final model combines gradient boosting (65% weight) and transformer architecture (35% weight) with F1-score of 0.92 and latency under 100ms on standard hardware.",
     "[MOCK] Deployed {topic} prediction pipeline with real-time inferencing capability (handling 2,000 req/sec). Implementation includes bias monitoring dashboard, data drift detection with automated alerts, and A/B testing framework for continuous improvement."]),
   ("default",
    ["[MOCK] Completed the requested task for {topic}. Results ready for review and next steps. Documentation included with implementation details and recommendations for future enhancements.",
     "[MOCK] Task finished successfully. The {topic} has been processed according to specifications with all acceptance criteria met. Performance metrics show 35% improvement over baseline.",
     "[MOCK] Completed work on {topic}. Deliverables include comprehensive documentation, implementation code, and validation tests. Security audit passed with zero critical findings."]),
   ("job_market",
    ["[MOCK] Analysis of {topic} job market trends complete. Identified 5 high-growth roles (ML engineers +42%, AI ethicists +65%, prompt engineers +120%) and 3 declining roles. Salary ranges $120K-$250K with highest demand in healthcare, finance, and autonomous systems. Remote work options available for 72% of positions.",
     "[MOCK] Job market analysis for {topic} and machine learning sectors finished. Machine learning engineers are in highest demand (38% YoY growth), followed by AI product managers and MLOps specialists. Top skills required: PyTorch/TensorFlow (95% of listings), cloud deployment (87%), and prompt engineering (76%).",
     "[MOCK] {topic} employment landscape report ready: 12,000+ open positions across Fortune 500 companies, 37% requiring advanced degrees. Top hiring regions: US West Coast, NYC metro, and emerging hubs in Austin and Toronto. Machine learning specialists commanding 28% premium over standard software roles."]),
   ("bookstore",
    ["[MOCK] {topic} application development completed with inventory management (10,000+ titles), customer account system, and recommendation engine. Features include real-time inventory tracking, secure payment processing (PCI-DSS compliant), and personalized recommendations based on purchase history.",
     "[MOCK] {topic} platform implemented with three core modules: inventory management, customer relations, and sales analytics. System handles 5,000+ concurrent users with 99.9% uptime and includes mobile-responsive design with full feature parity across devices.",
     "[MOCK] Online {topic} application ready for deployment with complete order management workflow, inventory system tracking 15,000+ titles, and customer loyalty program. Integration with major payment processors and shipping APIs allows for seamless checkout experience."])]

/-- Table `MOCK_PLANS` of `core/mock/constants/mock_plans.py`. -/
def MOCK_PLANS : List (String × List String) :=
  [("write",
    ["Research recent (2024-2025) sources and identify 3-5 key insights on the topic",
     "Develop a structured outline with main arguments and supporting evidence",
     "Write a first draft with compelling introduction, evidence-backed body sections, and actionable conclusion",
     "Edit for clarity, flow, and conciseness (aim for 15-20% word reduction)",
     "Format with proper headings, citations, and visual elements if applicable"]),
   ("analyze",
    ["Collect comprehensive data from primary sources and organize into structured format",
     "Identify 3-5 key patterns, trends, or anomalies in the dataset",
     "Compare findings with industry benchmarks or historical performance metrics",
     "Generate actionable insights and recommendations based on analysis",
     "Create visualization dashboard with key metrics and supporting evidence"]),
   ("develop",
    ["Define technical requirements and architecture based on user needs and performance criteria",
     "Design system components with clean interfaces, data models, and API specifications",
     "Implement core functionality with appropriate error handling and security practices",
     "Create automated test suite covering critical paths and edge cases",
     "Deploy solution with monitoring, documentation, and maintenance plan"]),
   ("design",
    ["Research user needs, behaviors, and competitive landscape for the product",
     "Create information architecture and user flow diagrams for key journeys",
     "Develop wireframes and interactive prototypes for critical screens",
     "Design comprehensive UI components with accessibility and responsive considerations",
     "Create design system documentation with implementation guidelines"]),
   ("data-science",
    ["Collect and preprocess data from relevant sources with quality assessment",
     "Perform exploratory data analysis to identify patterns and potential features",
     "Develop and train multiple models with cross-validation and hyperparameter tuning",
     "Evaluate model performance with appropriate metrics and business impact assessment",
     "Create deployable solution with monitoring for data and prediction drift"]),
   ("default",
    ["Research the topic thoroughly and identify 3-5 key points",
     "Create a structured outline with logical flow",
     "Develop initial draft with comprehensive content",
     "Revise and optimize for clarity and effectiveness",
     "Finalize with proper formatting and quality assurance"])]

/-- Table `DOMAIN_KNOWLEDGE` of `core/mock/constants/domain_knowledge.py`.
Every template references only the topic slot, so the per-slot numeric
variable generators (unused extra keyword arguments of the Python format
call) are not part of the model. -/
def DOMAIN_KNOWLEDGE : List (String × MDomain) :=
  [("cloud_computing",
    { keywords :=
        ["cloud platform",
         "microsoft azure",
         "aws",
         "amazon web services",
         "google cloud",
         "azure",
         "cloud computing",
         "cloud infrastructure",
         "cloud services",
         "cloud migration",
         "cloud native",
         "serverless",
         "multi-region",
         "cloud costs",
         "cloud deployment"]
      subtasks :=
        [("research",
          { patterns := ["research", "analyze", "compare", "evaluate", "assess", "study", "investigate"]
            template := "[MOCK] Cloud research complete: Evaluated {topic} across 3 major providers (AWS, Azure, GCP). Azure leads in enterprise integration (76% compatibility score), AWS in cost-effectiveness for variable workloads (22% lower TCO), and GCP in ML/AI capabilities (3.2x faster training time on standard benchmarks)." }),
         ("implement",
          { patterns := ["implement", "deploy", "build", "create", "construct", "develop", "integrate"]
            template := "[MOCK] Successfully deployed {topic} as multi-region cloud solution with 99.99% availability SLA. Architecture includes auto-scaling compute (handling 10,000+ concurrent users), geo-redundant storage with 11ms average access time, and zero-trust security model (SOC2/ISO27001 compliant)." }),
         ("optimize",
          { patterns := ["optimize", "improve", "enhance", "refine", "streamline", "tune", "refactor", "costs"]
            template := "[MOCK] Cloud optimization complete for {topic}: Reduced monthly costs by 38% ($47,500 annualized savings), decreased cold start latency by 64% (now 230ms avg), and implemented FinOps dashboard with proactive cost anomaly detection. Reserved instances now cover 85% of predictable workloads." })] }),
   ("ai_ml",
    { keywords :=
        ["artificial intelligence",
         "machine learning",
         "neural network",
         "deep learning",
         "nlp",
         "natural language processing",
         "computer vision",
         "predictive model",
         "data science",
         "ai model",
         "ml pipeline",
         "generative ai",
         "large language model",
         "ai"]
      subtasks :=
        [("research",
          { patterns := ["research", "analyze", "compare", "evaluate", "assess", "study", "investigate", "impact"]
            template := "[MOCK] AI/ML research on {topic} complete: Benchmarked 5 algorithms against current SOTA models. New approach achieves 93.2% accuracy (+7.8% over baseline) while reducing parameter count by 62% (678M vs 1.8B) and inference time by 43% (enabling real-time applications)." }),
         ("data",
          { patterns := ["data", "collect", "preprocess", "clean", "prepare", "gather", "dataset"]
            template := "[MOCK] Prepared dataset for {topic}: Processed 2.8M samples with automated cleaning pipeline (98.7% accuracy verified with manual review). Created balanced training/validation/test splits (70/15/15) with stratification across 7 key variables. Data augmentation increased effective samples by 3.5x for minority classes." }),
         ("model",
          { patterns := ["model", "train", "develop", "build", "create", "implement", "design"]
            template := "[MOCK] Developed {topic} model with ensemble architecture: Transformer backbone (1.2B parameters) with domain-specific adapters reducing computational requirements by 78%. Achieved SOTA results on 3 benchmarks (F1: 0.94, BLEU: 42.5, ROUGE-L: 0.89) with 240ms average inference time." }),
         ("deploy",
          { patterns := ["deploy", "implement", "integrate", "release", "publish", "operationalize", "serve"]
            template := "[MOCK] Deployed {topic} system to production: REST API handles 1,800 req/sec with auto-scaling (p99 latency: 485ms). Implemented A/B testing framework, monitoring for concept drift (7-day sliding window), and explainability module for regulatory compliance. Full CI/CD with daily fine-tuning." })] }),
   ("healthcare_tech",
    { keywords :=
        ["healthcare",
         "medical",
         "health informatics",
         "clinical",
         "patient care",
         "telehealth",
         "health monitoring",
         "medical imaging",
         "healthcare ai",
         "medical technology",
         "health records",
         "ehr",
         "remote patient monitoring",
         "patient outcomes",
         "medical diagnosis"]
      subtasks :=
        [("research",
          { patterns := ["research", "analyze", "investigate", "evaluate", "assess", "study", "review", "impact"]
            template := "[MOCK] Healthcare research complete for {topic}: Analyzed 12 clinical studies (7,850 total patients) across major healthcare systems. Solution demonstrates 28% reduction in readmission rates, 42% improvement in early diagnosis accuracy, and 17% decrease in treatment costs. All findings HIPAA and GDPR compliant." }),
         ("design",
          { patterns := ["design", "architect", "plan", "blueprint", "outline", "framework", "structure"]
            template := "[MOCK] Designed {topic} for healthcare environment with dual focus on clinical workflow integration and regulatory compliance. Solution includes role-based access control (14 permission levels), real-time PHI anonymization (meeting HIPAA Safe Harbor), and integration with 8 major EHR systems (including Epic, Cerner)." }),
         ("implement",
          { patterns := ["implement", "develop", "build", "create", "construct", "deploy", "integrate"]
            template := "[MOCK] Implemented {topic} system with secure medical data pipeline (zero PHI exposure) and clinical decision support module. Deployment completed across 3 hospital networks (42 locations) with 98.7% staff adoption. System processes 12,450 patient records daily with 350ms average response time." }),
         ("evaluate",
          { patterns := ["evaluate", "assess", "measure", "analyze", "test", "validate", "verify"]
            template := "[MOCK] Evaluated {topic} through clinical validation study (IRB approved) with 1,240 patients across 5 care environments. Results show 32% improvement in primary clinical outcome measures, 94.7% provider satisfaction score, and $3.8M annualized cost savings in pilot deployment group." })] })]


/-- Python template.format with the topic keyword argument: replace the topic
slot by the given topic (the only slot the templates contain). -/
def fmtTopic (template topic : String) : String :=
  replaceStr template "{topic}" topic

/-- Model of random.choice on a template list: an arbitrary selector index
reduced modulo the length (the empty-list case never arises in the code). -/
def choiceL (l : List String) (sel : Nat) : String :=
  l.getD (sel % l.length) ""

/-- Table `general_verbs` of `get_mock_task_response`, in declared order. -/
def general_verbs : List (String × List String) :=
  [("research", ["research", "analyze", "study", "evaluate", "assess", "compare", "investigate"]),
   ("implement", ["implement", "build", "create", "develop", "deploy", "construct", "integrate"]),
   ("design", ["design", "architect", "plan", "blueprint", "outline", "sketch", "wireframe"]),
   ("optimize", ["optimize", "improve", "enhance", "refine", "tune", "streamline", "refactor"]),
   ("evaluate", ["evaluate", "test", "verify", "validate", "measure", "assess"]),
   ("model", ["model", "train", "learn", "predict"]),
   ("data", ["data", "dataset", "preprocess", "clean", "prepare"])]

/-- List `tech_patterns` of `get_mock_task_response`: literal technology
phrases searched case-insensitively. -/
def tech_patterns : List String :=
  ["REST API", "GraphQL API", "machine learning", "deep learning",
   "artificial intelligence", "generative AI", "large language model",
   "data science", "cloud computing", "neural network", "transformer model",
   "user interface", "UI/UX", "database schema", "microservices",
   "web application", "mobile app", "DevOps pipeline", "CI/CD",
   "microservice architecture", "serverless", "kubernetes", "data engineering",
   "quantum computing", "blockchain", "edge computing", "IoT devices",
   "augmented reality", "virtual reality", "mixed reality", "spatial computing"]

/-- The stop-word list of the final fallback topic extraction in
`get_mock_task_response`. -/
def genStopwords : List String :=
  ["with", "from", "then", "than", "that", "this", "these", "those",
   "the", "and", "but", "for", "yet", "so", "or", "nor", "as", "at",
   "by", "for", "in", "to", "is", "on", "been", "was", "were", "of"]

/-- Maximal runs of consecutive characters satisfying keep, in order. -/
def runsAux (keep : Char → Bool) (cur : List Char) : List Char → List (List Char)
  | [] => if cur.isEmpty then [] else [cur.reverse]
  | c :: cs =>
      if keep c then runsAux keep (c :: cur) cs
      else if cur.isEmpty then runsAux keep [] cs
      else cur.reverse :: runsAux keep [] cs

/-- Model of the regex findall with pattern bounded alpha runs of length at
least 4: the maximal word-character runs of the text that consist only of
letters and have length at least 4. -/
def alphaWords (s : String) : List String :=
  ((runsAux (fun c => PromptEngineering.isWordCh c) [] s.data).filter
    (fun r => r.all (fun c => c.isAlpha) && decide (r.length ≥ 4))).map (fun r => (⟨r⟩ : String))

/-- The final fallback topic extraction of `get_mock_task_response`: last
significant lowered word, else task. -/
def fallbackTopic (task : String) : String :=
  let words := (alphaWords task).map lowerStr |>.filter (fun w => ¬ genStopwords.contains w)
  (words.getLast?).getD "task"

/-- The final rendering step of `get_mock_task_response`: pick the template
list of the category (default when absent), select a template, substitute the
topic, and prepend the marker when missing. -/
def renderFinal (template_category topic : String) (sel : Nat) : String :=
  let templates :=
    match alistGet MOCK_RESPONSES template_category with
    | some ts => ts
    | none => alistGetD MOCK_RESPONSES "default" []
  let mock_response := fmtTopic (choiceL templates sel) topic
  if containsStr mock_response "[MOCK]" then mock_response
  else "[MOCK] " ++ mock_response

/-- The response produced inside a matched domain of
`get_mock_task_response`: first matching declared subtask, else the subtask
of the first matching general-verb category (or, when the domain lacks that
category, the first subtask of the domain), else the first subtask. -/
def domainRespond (domain_data : MDomain) (task_lower matching_keyword : String) : String :=
  match domain_data.subtasks.find?
      (fun st => st.2.patterns.any (fun p => containsStr task_lower p)) with
  | some st => fmtTopic st.2.template matching_keyword
  | none =>
      let first_subtask := domain_data.subtasks.headD ("", { patterns := [], template := "" })
      match general_verbs.find? (fun vc => vc.2.any (fun v => containsStr task_lower v)) with
      | some vc =>
          match alistGet domain_data.subtasks vc.1 with
          | some st => fmtTopic st.template matching_keyword
          | none => fmtTopic first_subtask.2.template matching_keyword
      | none => fmtTopic first_subtask.2.template matching_keyword

/-- Function `get_mock_task_response` of `core/mock/generator.py`. The
named-entity regular-expression extraction of step 3 is modelled as an oracle
parameter namedEntity (the claims hold for every oracle), and the random
template choice as a selector index. Each path inside a matched domain
returns directly, so the first matching domain decides. -/
def get_mock_task_response (task : String) (namedEntity : String → Option String)
    (sel : Nat) : String :=
  let task_lower := lowerStr task
  match DOMAIN_KNOWLEDGE.find?
      (fun d => d.2.keywords.any (fun kw => containsStr task_lower kw)) with
  | some (_, domain_data) =>
      let matching_keyword :=
        (domain_data.keywords.find? (fun kw => containsStr task_lower kw)).getD
          (domain_data.keywords.headD "")
      domainRespond domain_data task_lower matching_keyword
  | none =>
      match tech_patterns.find? (fun p => containsStr task_lower (lowerStr p)) with
      | some p =>
          let topic := lowerStr p
          let template_category :=
            if ["intelligence", "learning", "neural", "model"].any
                (fun t => containsStr topic t) then "analyze"
            else if ["api", "architecture", "engineering", "DevOps"].any
                (fun t => containsStr topic t) then "develop"
            else if ["interface", "UI", "UX", "design"].any
                (fun t => containsStr topic t) then "design"
            else "default"
          renderFinal template_category topic sel
      | none =>
          match namedEntity task with
          | some entity => renderFinal "research" (lowerStr (stripStr entity)) sel
          | none =>
              let template_category :=
                if ["data", "preprocess", "train", "model", "machine", "predict"].any
                    (fun t => containsStr task_lower t) then "data-science"
                else if ["research", "gather", "find", "collect"].any
                    (fun t => containsStr task_lower t) then "research"
                else if ["write", "draft", "blog", "article", "post"].any
                    (fun t => containsStr task_lower t) then "write"
                else if ["analyz", "analysis", "assess", "evaluate"].any
                    (fun t => containsStr task_lower t) then "analyze"
                else if ["develop", "implement", "code", "program"].any
                    (fun t => containsStr task_lower t) then "develop"
                else if ["design", "wireframe", "mockup", "sketch"].any
                    (fun t => containsStr task_lower t) then "design"
                else if ["format", "revise", "edit", "proofread"].any
                    (fun t => containsStr task_lower t) then "default"
                else "default"
              renderFinal template_category (fallbackTopic task) sel

/-- A subtask with its rendered result (`SubtaskRecord` of the spec data
model). -/
structure SubtaskRecord where
  subtask : String
  result : String
deriving DecidableEq, Repr

/-- The guard of `generate_mock_plan_and_results` ensuring no empty or
untagged response: when the response is empty, blank, or lacks the marker, a
default-category template is rendered over a topic extracted from the task. -/
def ensure_tagged (task response : String) (sel : Nat) : String :=
  if response = "" ∨ stripStr response = "" ∨ ¬ containsStr response "[MOCK]" then
    let words := splitWs (lowerStr task)
    let topic :=
      (words.find? (fun w =>
        decide (w.data.length > 4) &&
          ¬ ["with", "from", "then", "than", "that", "this"].contains w)).getD "task"
    fmtTopic (choiceL (alistGetD MOCK_RESPONSES "default" []) sel) topic
  else response

/-- Function `generate_mock_plan_and_results` of `core/mock/generator.py`:
classify the request, take the canned plan of that category, and render a
guarded mock response for each subtask. Randomness is modelled by per-index
selector functions, the named-entity regex by the oracle. -/
def generate_mock_plan_and_results (user_request : String)
    (namedEntity : String → Option String) (sel sel2 : Nat → Nat) :
    List String × List SubtaskRecord :=
  let plan_type := mock_classify_request user_request
  let subtasks := alistGetD MOCK_PLANS plan_type []
  (subtasks,
   subtasks.enum.map (fun it =>
     { subtask := it.2
       result := ensure_tagged it.2 (get_mock_task_response it.2 namedEntity (sel it.1)) (sel2 it.1) }))

/-- A response is acceptable when it is nonempty and carries the literal
marker tag. -/
def taggedOk (s : String) : Bool :=
  (s != "") && containsStr s "[MOCK]"

end MockGen

/-! ## Supporting lemmas on the string primitives -/

theorem prefixOfL_refl (l : List Char) : prefixOfL l l = true := by
  induction l with
  | nil => rfl
  | cons c cs ih => simp [prefixOfL, ih]

theorem prefixOfL_append (p l t : List Char) (h : prefixOfL p l = true) :
    prefixOfL p (l ++ t) = true := by
  induction p generalizing l with
  | nil => rfl
  | cons a as ih =>
      cases l with
      | nil => simp [prefixOfL] at h
      | cons b bs =>
          simp only [prefixOfL, Bool.and_eq_true, beq_iff_eq] at h
          simp only [List.cons_append, prefixOfL, Bool.and_eq_true, beq_iff_eq]
          exact ⟨h.1, ih bs h.2⟩

theorem prefixOfL_exists (p l : List Char) (h : prefixOfL p l = true) :
    ∃ t, l = p ++ t := by
  induction p generalizing l with
  | nil => exact ⟨l, rfl⟩
  | cons a as ih =>
      cases l with
      | nil => simp [prefixOfL] at h
      | cons b bs =>
          simp only [prefixOfL, Bool.and_eq_true, beq_iff_eq] at h
          obtain ⟨t, ht⟩ := ih bs h.2
          exact ⟨t, by simp [h.1, ht]⟩

theorem infixOfL_nil_pat (l : List Char) : infixOfL [] l = true := by
  cases l with
  | nil => rfl
  | cons c cs => simp [infixOfL, prefixOfL]

theorem infixOfL_of_prefixOfL (p l : List Char) (h : prefixOfL p l = true) :
    infixOfL p l = true := by
  cases l with
  | nil =>
      cases p with
      | nil => rfl
      | cons a as => simp [prefixOfL] at h
  | cons c cs => simp [infixOfL, h]

theorem infixOfL_append_left (p a b : List Char) (h : infixOfL p a = true) :
    infixOfL p (a ++ b) = true := by
  induction a with
  | nil =>
      simp only [infixOfL] at h
      cases p with
      | nil => exact infixOfL_nil_pat b
      | cons x xs => simp [prefixOfL] at h
  | cons c cs ih =>
      simp only [infixOfL, Bool.or_eq_true] at h
      rcases h with h | h
      · simpa [infixOfL] using Or.inl (prefixOfL_append p (c :: cs) b h)
      · simpa [infixOfL] using Or.inr (ih h)

theorem infixOfL_append_right (p a b : List Char) (h : infixOfL p b = true) :
    infixOfL p (a ++ b) = true := by
  induction a with
  | nil => simpa using h
  | cons c cs ih =>
      simp only [List.cons_append, infixOfL, Bool.or_eq_true]
      exact Or.inr ih

theorem infixOfL_ne_nil (p l : List Char) (hp : p ≠ []) (h : infixOfL p l = true) :
    l ≠ [] := by
  intro hl
  subst hl
  cases p with
  | nil => exact hp rfl
  | cons a as => simp [infixOfL, prefixOfL] at h

theorem containsStr_append_left (s t pat : String) (h : containsStr s pat = true) :
    containsStr (s ++ t) pat = true := by
  simpa [containsStr, String.data_append] using
    infixOfL_append_left pat.data s.data t.data (by simpa [containsStr] using h)

theorem containsStr_append_right (s t pat : String) (h : containsStr t pat = true) :
    containsStr (s ++ t) pat = true := by
  simpa [containsStr, String.data_append] using
    infixOfL_append_right pat.data s.data t.data (by simpa [containsStr] using h)

theorem containsStr_refl (s : String) : containsStr s s = true :=
  infixOfL_of_prefixOfL s.data s.data (prefixOfL_refl s.data)

theorem containsStr_joinSep (sep : String) (parts : List String) (x : String)
    (hx : x ∈ parts) : containsStr (joinSep sep parts) x = true := by
  induction parts with
  | nil => cases hx
  | cons a rest ih =>
      cases rest with
      | nil =>
          rcases List.mem_singleton.mp hx with rfl
          exact containsStr_refl x
      | cons b r2 =>
          rcases List.mem_cons.mp hx with rfl | hx2
          · show containsStr (x ++ sep ++ joinSep sep (b :: r2)) x = true
            exact containsStr_append_left _ _ _ (containsStr_append_left _ _ _ (containsStr_refl x))
          · show containsStr (a ++ sep ++ joinSep sep (b :: r2)) x = true
            exact containsStr_append_right _ _ _ (ih hx2)

theorem string_mk_ne_empty (l : List Char) (h : l ≠ []) : (⟨l⟩ : String) ≠ "" := by
  intro he
  exact h (congrArg String.data he)

theorem containsStr_ne_empty (s pat : String) (hp : pat.data ≠ []) (h : containsStr s pat = true) :
    s ≠ "" := by
  intro he
  subst he
  exact infixOfL_ne_nil pat.data "".data hp h rfl

theorem taggedOk_of_marker (s : String) (h : containsStr s "[MOCK]" = true) :
    MockGen.taggedOk s = true := by
  have hne : s ≠ "" := containsStr_ne_empty s "[MOCK]" (by decide) h
  simp [MockGen.taggedOk, h, hne]

theorem replaceFromAux_append (p : Char) (ps rep : List Char) (pre rest : List Char) (fuel : Nat)
    (hpre : ∀ c ∈ pre, (c == p) = false) :
    replaceFromAux p ps rep (pre.length + fuel) (pre ++ rest)
      = pre ++ replaceFromAux p ps rep fuel rest := by
  induction pre with
  | nil => simp
  | cons c cs ih =>
      have hc := hpre c (by simp)
      have harith : (c :: cs).length + fuel = (cs.length + fuel) + 1 := by
        simp only [List.length_cons]
        omega
      rw [harith]
      simp only [List.cons_append, replaceFromAux, hc, Bool.false_and, if_neg Bool.false_ne_true]
      exact congrArg (fun l => c :: l) (ih (fun d hd => hpre d (by simp [hd])))

theorem fmtTopic_tagged (t topic : String) (h : prefixOfL "[MOCK] ".data t.data = true) :
    MockGen.taggedOk (MockGen.fmtTopic t topic) = true := by
  obtain ⟨rest, hrest⟩ := prefixOfL_exists _ _ h
  have hpat : "{topic}".data = '{' :: "topic\x7d".data := rfl
  have hpre : ∀ c ∈ "[MOCK] ".data, (c == '{') = false := by decide
  have hdata : (MockGen.fmtTopic t topic).data
      = "[MOCK] ".data ++ replaceFromAux '{' "topic\x7d".data topic.data rest.length rest := by
    show (replaceStr t "{topic}" topic).data = _
    rw [replaceStr]
    simp only [hpat]
    show (replaceFromAux '{' "topic\x7d".data topic.data t.data.length t.data) = _
    rw [hrest, List.length_append]
    exact replaceFromAux_append '{' "topic\x7d".data topic.data _ rest rest.length hpre
  apply taggedOk_of_marker
  show infixOfL "[MOCK]".data (MockGen.fmtTopic t topic).data = true
  rw [hdata]
  exact infixOfL_append_left _ _ _
    (infixOfL_of_prefixOfL _ _ (by decide : prefixOfL "[MOCK]".data "[MOCK] ".data = true))

theorem choiceL_mem (l : List String) (sel : Nat) (h : l ≠ []) : MockGen.choiceL l sel ∈ l := by
  have hpos : 0 < l.length := List.length_pos.mpr h
  have hlt : sel % l.length < l.length := Nat.mod_lt _ hpos
  show (l.get? (sel % l.length)).getD "" ∈ l
  rw [List.get?_eq_get hlt]
  exact List.get_mem l _ _

/-! ## Supporting lemmas on the mock synthesis engine -/

theorem marker_in_marker_space : containsStr "[MOCK] " "[MOCK]" = true := by decide

theorem renderFinal_tagged (cat topic : String) (sel : Nat) :
    MockGen.taggedOk (MockGen.renderFinal cat topic sel) = true := by
  unfold MockGen.renderFinal
  dsimp only
  cases hget : alistGet MockGen.MOCK_RESPONSES cat
  all_goals dsimp only
  all_goals split
  all_goals
    first
      | (exact taggedOk_of_marker _ (by assumption))
      | (exact taggedOk_of_marker _
          (containsStr_append_left "[MOCK] " _ "[MOCK]" marker_in_marker_space))

theorem domainRespond_tagged (dd : MockGen.MDomain) (task_lower kw : String)
    (hne : dd.subtasks ≠ [])
    (hall : dd.subtasks.all
      (fun st => prefixOfL "[MOCK] ".data st.2.template.data) = true) :
    MockGen.taggedOk (MockGen.domainRespond dd task_lower kw) = true := by
  have hmem :
      ∀ st ∈ dd.subtasks, prefixOfL "[MOCK] ".data st.2.template.data = true :=
    List.all_eq_true.mp hall
  have hhead : dd.subtasks.headD ("", { patterns := [], template := "" }) ∈ dd.subtasks := by
    cases hs : dd.subtasks with
    | nil => exact absurd hs hne
    | cons a rest => simp [List.headD]
  unfold MockGen.domainRespond
  split
  · next st hfind =>
      exact fmtTopic_tagged _ kw (hmem st (List.mem_of_find?_eq_some hfind))
  · next hfind =>
      split
      · next vc hvc =>
          cases hget : alistGet dd.subtasks vc.1 with
          | some st =>
              simp only [hget]
              cases hf : dd.subtasks.find? (fun kv => kv.1 == vc.1) with
              | none => simp [alistGet, hf] at hget
              | some pair =>
                  have hsnd : pair.2 = st := by simpa [alistGet, hf] using hget
                  subst hsnd
                  exact fmtTopic_tagged _ kw (hmem pair (List.mem_of_find?_eq_some hf))
          | none =>
              simp only [hget]
              exact fmtTopic_tagged _ kw (hmem _ hhead)
      · next => exact fmtTopic_tagged _ kw (hmem _ hhead)

theorem get_mock_task_response_tagged (task : String)
    (oracle : String → Option String) (sel : Nat) :
    MockGen.taggedOk (MockGen.get_mock_task_response task oracle sel) = true := by
  have hdk : MockGen.DOMAIN_KNOWLEDGE.all
      (fun d => (!d.2.subtasks.isEmpty)
        && d.2.subtasks.all (fun st => prefixOfL "[MOCK] ".data st.2.template.data)) = true := by
    decide
  unfold MockGen.get_mock_task_response
  dsimp only
  cases hfind : MockGen.DOMAIN_KNOWLEDGE.find?
      (fun d => d.2.keywords.any (fun kw => containsStr (lowerStr task) kw)) with
  | some nd =>
      obtain ⟨name, dd⟩ := nd
      have hmem := List.mem_of_find?_eq_some hfind
      have hprops := List.all_eq_true.mp hdk _ hmem
      simp only [Bool.and_eq_true, Bool.not_eq_eq_eq_not, Bool.not_true] at hprops
      refine domainRespond_tagged dd _ _ ?_ hprops.2
      intro hnil
      have hie : dd.subtasks.isEmpty = true := by simp [hnil]
      rw [hprops.1] at hie
      exact Bool.false_ne_true hie
  | none =>
      dsimp only
      cases htech : MockGen.tech_patterns.find?
          (fun p => containsStr (lowerStr task) (lowerStr p)) with
      | some p =>
          dsimp only
          exact renderFinal_tagged _ _ _
      | none =>
          dsimp only
          cases horc : oracle task with
          | some e => exact renderFinal_tagged _ _ _
          | none =>
              dsimp only
              exact renderFinal_tagged _ _ _

set_option maxHeartbeats 1000000 in
set_option maxRecDepth 8000 in
theorem ensure_tagged_tagged (task response : String) (sel : Nat) :
    MockGen.taggedOk (MockGen.ensure_tagged task response sel) = true := by
  unfold MockGen.ensure_tagged
  dsimp only
  split
  · next h =>
      have hne : alistGetD MockGen.MOCK_RESPONSES "default" [] ≠ [] := by decide
      have hall : ∀ t ∈ alistGetD MockGen.MOCK_RESPONSES "default" [],
          prefixOfL "[MOCK] ".data t.data = true := by decide
      exact fmtTopic_tagged _ _ (hall _ (choiceL_mem _ sel hne))
  · next h =>
      push_neg at h
      exact taggedOk_of_marker _ (by simpa using h.2.2)

/-! ## Supporting lemmas on whitespace and tokenization -/

theorem isWs_lowCh (c : Char) : isWs (lowCh c) = isWs c := by
  unfold lowCh
  split <;> rfl

theorem isWs_cases (c : Char) (h : isWs c = true) :
    c = ' ' ∨ c = '\t' ∨ c = '\n' ∨ c = '\r' := by
  have h2 : ((c = ' ' ∨ c = '\t') ∨ c = '\n') ∨ c = '\r' := by
    simpa [isWs, Bool.or_eq_true, beq_iff_eq] using h
  tauto

theorem all_ws_stripPunct_lower (s : String) (h : ∀ c ∈ s.data, isWs c = true) :
    ∀ d ∈ (PromptEngineering.stripPunct (lowerStr s)).data, isWs d = true := by
  intro d hd
  simp only [PromptEngineering.stripPunct, lowerStr, List.map_map, List.mem_map,
    Function.comp] at hd
  obtain ⟨a, ha, rfl⟩ := hd
  have hws : isWs (lowCh a) = true := by rw [isWs_lowCh]; exact h a ha
  simp [hws]

theorem splitWsAux_nil_of_all_ws (l : List Char) (h : ∀ c ∈ l, isWs c = true) :
    splitWsAux [] l = [] := by
  induction l with
  | nil => rfl
  | cons c cs ih =>
      have hc := h c (by simp)
      simp only [splitWsAux, hc, if_pos rfl, List.isEmpty_nil, if_true]
      exact ih (fun d hd => h d (by simp [hd]))

theorem stripStr_eq_empty_all_ws (s : String) (h : stripStr s = "") :
    ∀ c ∈ s.data, isWs c = true := by
  have hdata : (((s.data.dropWhile isWs).reverse.dropWhile isWs).reverse : List Char) = [] :=
    congrArg String.data h
  rw [List.reverse_eq_nil_iff] at hdata
  have hdrop : ∀ c ∈ (s.data.dropWhile isWs).reverse, isWs c = true :=
    List.dropWhile_eq_nil_iff.mp hdata
  have hdrop2 : ∀ c ∈ s.data.dropWhile isWs, isWs c = true := by
    intro c hc
    exact hdrop c (List.mem_reverse.mpr hc)
  intro c hc
  rw [← List.takeWhile_append_dropWhile (p := isWs) (l := s.data)] at hc
  rcases List.mem_append.mp hc with hc | hc
  · exact List.mem_takeWhile_imp hc
  · exact hdrop2 c hc

theorem splitWs_nil_of_all_ws (s : String) (h : ∀ c ∈ s.data, isWs c = true) :
    splitWs s = [] := by
  unfold splitWs
  rw [splitWsAux_nil_of_all_ws s.data h]
  rfl

/-! ## Supporting lemmas on retrieval -/

theorem containsStr_empty_pat (s : String) : containsStr s "" = true := by
  show infixOfL "".data s.data = true
  have h : "".data = ([] : List Char) := rfl
  rw [h]
  exact infixOfL_nil_pat s.data

theorem matchedAux_of_false (f : Rag.RagEntry → Bool) (hf : ∀ e, f e = false)
    (seen : List String) (db : Rag.RagDb) : Rag.matchedAux f seen db = [] := by
  induction db generalizing seen with
  | nil => rfl
  | cons te rest ih =>
      obtain ⟨t, e⟩ := te
      unfold Rag.matchedAux
      by_cases hs : seen.contains t = true
      · rw [if_pos hs]
        exact ih seen
      · rw [if_neg hs, hf e, if_neg Bool.false_ne_true]
        exact ih seen

theorem matchedEntries_nil_keywords (db : Rag.RagDb) :
    Rag.matchedEntries [] db = [] := by
  unfold Rag.matchedEntries
  exact matchedAux_of_false _ (fun e => rfl) [] db

theorem lookup_main (keywords : List String) (db : Rag.RagDb)
    (hdb : ¬ db.isEmpty = true) (hkw : ¬ keywords.isEmpty = true) :
    Rag.lookup keywords db =
      { context := joinSep "\n" (((Rag.matchedEntries keywords db).map
          (fun te => te.2.context)).filter (fun c => c ≠ ""))
        offers := (Rag.matchedEntries keywords db).flatMap
          (fun te => Rag.takeLim (Rag.limitFor (Rag.matchedEntries keywords db).length) te.2.offers)
        tips := (Rag.matchedEntries keywords db).flatMap
          (fun te => Rag.takeLim (Rag.limitFor (Rag.matchedEntries keywords db).length) te.2.tips)
        related_docs := (Rag.matchedEntries keywords db).flatMap
          (fun te => Rag.takeLim (Rag.limitFor (Rag.matchedEntries keywords db).length) te.2.related_docs) } := by
  unfold Rag.lookup
  rw [if_neg hdb, if_neg hkw]

/-! ## Supporting lemmas on classification -/

theorem splitWsAux_map_lowCh (l : List Char) : ∀ cur : List Char,
    splitWsAux (cur.map lowCh) (l.map lowCh) = (splitWsAux cur l).map (List.map lowCh) := by
  induction l with
  | nil =>
      intro cur
      cases cur with
      | nil => rfl
      | cons c cs => simp [splitWsAux]
  | cons a as ih =>
      intro cur
      simp only [List.map_cons, splitWsAux, isWs_lowCh a]
      by_cases ha : isWs a = true
      · rw [if_pos ha, if_pos ha]
        cases cur with
        | nil =>
            simpa using ih []
        | cons c cs =>
            simp only [List.isEmpty_cons, if_neg Bool.false_ne_true, List.map_cons]
            rw [show (lowCh c :: cs.map lowCh) = (c :: cs).map lowCh from rfl]
            simp only [List.map_reverse]
            rw [← List.map_reverse]
            simpa [List.map_reverse] using congrArg (List.cons ((c :: cs).reverse.map lowCh)) (ih [])
      · rw [if_neg ha, if_neg ha]
        exact ih (a :: cur)

theorem splitWs_lowerStr_length (s : String) :
    (splitWs (lowerStr s)).length = (splitWs s).length := by
  show ((splitWsAux [] ((lowerStr s).data)).map (fun l => (⟨l⟩ : String))).length
      = ((splitWsAux [] s.data).map (fun l => (⟨l⟩ : String))).length
  have h := splitWsAux_map_lowCh s.data []
  simp only [List.map_nil] at h
  rw [show (lowerStr s).data = s.data.map lowCh from rfl, h]
  simp

theorem foldl_max_init_ge (l : List Nat) : ∀ i : Nat, i ≤ l.foldl max i := by
  induction l with
  | nil => intro i; exact Nat.le_refl i
  | cons a as ih =>
      intro i
      exact Nat.le_trans (Nat.le_max_left i a) (ih (max i a))

theorem find_max_eq_pick (xs : List (String × Nat)) : ∀ (x : String × Nat),
    0 < x.2 → (∀ z ∈ xs, 0 < z.2) →
    ((x :: xs).find? (fun w => w.2 == ((x :: xs).map (fun z => z.2)).foldl max 0))
      = some (xs.foldl (fun best y => if y.2 > best.2 then y else best) x) := by
  induction xs with
  | nil =>
      intro x hx _
      have hm : ([x].map (fun z : String × Nat => z.2)).foldl max 0 = x.2 := by
        simp [Nat.max_eq_right (Nat.le_of_lt hx)]
      simp [List.find?, hm]
  | cons y ys ih =>
      intro x hx hall
      have hy : 0 < y.2 := hall y (by simp)
      have hys : ∀ z ∈ ys, 0 < z.2 := fun z hz => hall z (by simp [hz])
      by_cases hgt : y.2 > x.2
      · -- the accumulator is replaced by y
        have hpick : (y :: ys).foldl (fun best z => if z.2 > best.2 then z else best) x
            = ys.foldl (fun best z => if z.2 > best.2 then z else best) y := by
          simp only [List.foldl_cons, if_pos hgt]
        have hM : (((x :: y :: ys).map (fun z : String × Nat => z.2)).foldl max 0)
            = (((y :: ys).map (fun z : String × Nat => z.2)).foldl max 0) := by
          simp only [List.map_cons, List.foldl_cons]
          rw [Nat.max_eq_right (Nat.le_of_lt hx), Nat.max_eq_right (Nat.le_of_lt hgt),
            Nat.max_eq_right (Nat.le_of_lt hy)]
        have hxlt : x.2 < (((y :: ys).map (fun z : String × Nat => z.2)).foldl max 0) := by
          have h1 : y.2 ≤ (((y :: ys).map (fun z : String × Nat => z.2)).foldl max 0) := by
            simp only [List.map_cons, List.foldl_cons]
            rw [Nat.max_eq_right (Nat.le_of_lt hy)]
            exact foldl_max_init_ge _ y.2
          omega
        rw [hpick, ← ih y hy hys]
        have hne : ¬ ((fun w : String × Nat =>
            w.2 == (((x :: y :: ys).map (fun z : String × Nat => z.2)).foldl max 0)) x) = true := by
          simp only [hM, beq_iff_eq]
          omega
        have hskip : List.find? (fun w : String × Nat =>
              w.2 == (((x :: y :: ys).map (fun z : String × Nat => z.2)).foldl max 0))
              (x :: y :: ys)
            = List.find? (fun w : String × Nat =>
              w.2 == (((x :: y :: ys).map (fun z : String × Nat => z.2)).foldl max 0))
              (y :: ys) := List.find?_cons_of_neg _ hne
        rw [hskip, hM]
      · -- the accumulator x survives
        have hyx : y.2 ≤ x.2 := Nat.le_of_not_lt hgt
        have hpick : (y :: ys).foldl (fun best z => if z.2 > best.2 then z else best) x
            = ys.foldl (fun best z => if z.2 > best.2 then z else best) x := by
          simp only [List.foldl_cons, if_neg hgt]
        have hM : (((x :: y :: ys).map (fun z : String × Nat => z.2)).foldl max 0)
            = (((x :: ys).map (fun z : String × Nat => z.2)).foldl max 0) := by
          simp only [List.map_cons, List.foldl_cons]
          rw [Nat.max_eq_right (Nat.le_of_lt hx),
            Nat.max_eq_left hyx]
        have hxle : x.2 ≤ (((x :: ys).map (fun z : String × Nat => z.2)).foldl max 0) := by
          simp only [List.map_cons, List.foldl_cons]
          rw [Nat.max_eq_right (Nat.le_of_lt hx)]
          exact foldl_max_init_ge _ x.2
        have hihx := ih x hx hys
        by_cases hpx : (x.2 == (((x :: ys).map (fun z : String × Nat => z.2)).foldl max 0)) = true
        · -- the head already attains the maximum
          have hfx : ((x :: ys).find?
              (fun w => w.2 == ((x :: ys).map (fun z : String × Nat => z.2)).foldl max 0))
              = some x := List.find?_cons_of_pos _ hpx
          have hres : ys.foldl (fun best z => if z.2 > best.2 then z else best) x = x :=
            (Option.some.inj (hfx.symm.trans hihx)).symm
          rw [hpick, hres, hM]
          exact List.find?_cons_of_pos _ hpx
        · -- the head does not attain the maximum: skip x, then skip y
          have hxne : ¬ ((fun w : String × Nat =>
              w.2 == (((x :: ys).map (fun z : String × Nat => z.2)).foldl max 0)) x) = true := hpx
          have hyne : ¬ ((fun w : String × Nat =>
              w.2 == (((x :: ys).map (fun z : String × Nat => z.2)).foldl max 0)) y) = true := by
            simp only [beq_iff_eq]
            intro he
            have : x.2 = (((x :: ys).map (fun z : String × Nat => z.2)).foldl max 0) := by omega
            exact hpx (beq_iff_eq.mpr this)
          have hskip1 : List.find? (fun w : String × Nat =>
                w.2 == (((x :: ys).map (fun z : String × Nat => z.2)).foldl max 0))
                (x :: y :: ys)
              = List.find? (fun w : String × Nat =>
                w.2 == (((x :: ys).map (fun z : String × Nat => z.2)).foldl max 0))
                (y :: ys) := List.find?_cons_of_neg _ hxne
          have hskip2 : List.find? (fun w : String × Nat =>
                w.2 == (((x :: ys).map (fun z : String × Nat => z.2)).foldl max 0))
                (y :: ys)
              = List.find? (fun w : String × Nat =>
                w.2 == (((x :: ys).map (fun z : String × Nat => z.2)).foldl max 0))
                ys := List.find?_cons_of_neg _ hyne
          have hskip3 : List.find? (fun w : String × Nat =>
                w.2 == (((x :: ys).map (fun z : String × Nat => z.2)).foldl max 0))
                (x :: ys)
              = List.find? (fun w : String × Nat =>
                w.2 == (((x :: ys).map (fun z : String × Nat => z.2)).foldl max 0))
                ys := List.find?_cons_of_neg _ hxne
          rw [hpick, hM, hskip1, hskip2]
          have hstep := hihx
          rw [hskip3] at hstep
          exact hstep

/-! ## Claim theorems -/

/-- C6: for every input text (including a single character), for every value
of the random template selectors and every named-entity extraction, the mock
synthesis response is a nonempty string containing the literal marker tag,
both for a single task response and for every per-subtask result of
`generate_mock_plan_and_results`, whose guard substitutes a default-category
template whenever a rendered response is empty, blank, or lacks the marker. -/
theorem spec_c6_mock_synthesis_nonempty_tagged
    (task : String) (namedEntity : String → Option String) (sel : Nat)
    (sel1 sel2 : Nat → Nat) :
    MockGen.taggedOk (MockGen.get_mock_task_response task namedEntity sel) = true
    ∧ (((MockGen.generate_mock_plan_and_results task namedEntity sel1 sel2).2.map
        (fun r => r.result)).all MockGen.taggedOk) = true := by
  refine ⟨get_mock_task_response_tagged task namedEntity sel, ?_⟩
  unfold MockGen.generate_mock_plan_and_results
  dsimp only
  rw [List.map_map, List.all_eq_true]
  intro s hs
  rcases List.mem_map.mp hs with ⟨it, _, rfl⟩
  exact ensure_tagged_tagged _ _ _

/-- C4 counterexample: the extractor does not deduplicate. On the text
consisting of the word mortgage three times, the code returns the token three
times, while the claimed extractor (with first-occurrence deduplication)
returns it once. -/
theorem spec_c4_counterexample :
    PromptEngineering.extract_keywords_simple "mortgage mortgage mortgage" 5
        = ["mortgage", "mortgage", "mortgage"]
    ∧ PromptEngineering.extract_keywords_claimed "mortgage mortgage mortgage" 5
        = ["mortgage"]
    ∧ (["mortgage", "mortgage", "mortgage"] : List String) ≠ ["mortgage"] := by
  refine ⟨by decide, by decide, by decide⟩

/-- C4 as amended: for every text and maximum count, keyword extraction
lower-cases, strips punctuation, tokenizes on word boundaries, removes the
stop-word set and tokens of length at most 2, and returns the first N
remaining tokens in order without deduplication; for empty or whitespace-only
text it returns the empty sequence. -/
theorem spec_c4_keyword_extraction (text : String) (n : Nat) :
    PromptEngineering.extract_keywords_simple text n
      = PromptEngineering.extract_keywords_amended text n
    ∧ (stripStr text = "" → PromptEngineering.extract_keywords_simple text n = []) := by
  constructor
  · by_cases h : text = ""
    · subst h
      have hsplit : splitWs (PromptEngineering.stripPunct (lowerStr "")) = [] := rfl
      simp [PromptEngineering.extract_keywords_simple,
        PromptEngineering.extract_keywords_amended, hsplit]
    · simp [PromptEngineering.extract_keywords_simple,
        PromptEngineering.extract_keywords_amended, h]
  · intro h
    have hws := stripStr_eq_empty_all_ws text h
    unfold PromptEngineering.extract_keywords_simple
    by_cases ht : text = ""
    · simp [ht]
    · rw [if_neg ht]
      have hsplit : splitWs (PromptEngineering.stripPunct (lowerStr text)) = [] :=
        splitWs_nil_of_all_ws _ (all_ws_stripPunct_lower text hws)
      simp [hsplit]

/-- C4 witness: whitespace-only text has empty strip and empty extraction. -/
theorem spec_c4_witness :
    stripStr "   " = "" ∧ PromptEngineering.extract_keywords_simple "   " 5 = [] :=
  ⟨by decide, (spec_c4_keyword_extraction "   " 5).2 (by decide)⟩

/-- C8: fallback-plan resolution prefers the plan of the preferred category of
the domain, else the plan of the classified category, else the default plan;
and every returned plan (unknown category and no domain included) is an
ordered list of between 3 and 7 subtask strings. -/
theorem spec_c8_fallback_plan_resolution (cat : String) (d : Option Domain.DomainInfo) :
    Fallback.get_fallback_plan cat d = Fallback.fallback_plan_claim cat d
    ∧ 3 ≤ (Fallback.get_fallback_plan cat d).length
    ∧ (Fallback.get_fallback_plan cat d).length ≤ 7 := by
  have hlen : ∀ k p, alistGet Fallback.FALLBACK_PLANS k = some p → p.length = 6 := by
    intro k p hp
    have hall : Fallback.FALLBACK_PLANS.all (fun kv => kv.2.length == 6) = true := by decide
    cases hf : Fallback.FALLBACK_PLANS.find? (fun kv => kv.1 == k) with
    | none => simp [alistGet, hf] at hp
    | some pair =>
        have hmem := List.mem_of_find?_eq_some hf
        have hbeq := List.all_eq_true.mp hall _ hmem
        have hp2 : pair.2 = p := by simpa [alistGet, hf] using hp
        rw [← hp2]
        exact Nat.eq_of_beq_eq_true (by simpa using hbeq)
  have hdef : (alistGetD Fallback.FALLBACK_PLANS "default" []).length = 6 := by decide
  have hlen6 : (Fallback.get_fallback_plan cat d).length = 6 := by
    unfold Fallback.get_fallback_plan
    cases d with
    | none =>
        dsimp only
        cases h2 : alistGet Fallback.FALLBACK_PLANS cat with
        | some p => simpa using hlen cat p h2
        | none => simpa [h2] using hdef
    | some di =>
        dsimp only
        cases h : alistGet Fallback.FALLBACK_PLANS di.preferred_category with
        | some p => simpa [h] using hlen _ p h
        | none =>
            cases h2 : alistGet Fallback.FALLBACK_PLANS cat with
            | some p => simpa [h, h2] using hlen cat p h2
            | none => simpa [h, h2] using hdef
  refine ⟨?_, by omega, by omega⟩
  unfold Fallback.get_fallback_plan Fallback.fallback_plan_claim
  cases d with
  | none =>
      dsimp only
      cases h2 : alistGet Fallback.FALLBACK_PLANS cat <;> simp [h2, alistGetD]
  | some di =>
      dsimp only
      cases h : alistGet Fallback.FALLBACK_PLANS di.preferred_category with
      | some p => simp [h]
      | none =>
          cases h2 : alistGet Fallback.FALLBACK_PLANS cat <;> simp [h, h2, alistGetD]

/-- C7: skill resolution is total: an empty id, an unknown id, an absent or
empty tier, and a tier whose trimmed upper-cased form is undeclared all
resolve to BEGINNER and yield the BEGINNER parameter-table entry, while a
declared tier resolves to its trim-plus-uppercase normalisation. -/
theorem spec_c7_skill_resolution (user_id : String) :
    (user_id = "" →
      UserProfile.resolve_skill user_id = alistGetD Settings.SKILL_PARAMS "BEGINNER" [])
    ∧ (alistGet Settings.MOCK_USER_PROFILES user_id = none →
      UserProfile.resolve_skill user_id = alistGetD Settings.SKILL_PARAMS "BEGINNER" [])
    ∧ (∀ p, alistGet Settings.MOCK_USER_PROFILES user_id = some p →
        (p.skill_level = none ∨ p.skill_level = some "") →
        UserProfile.resolve_skill user_id = alistGetD Settings.SKILL_PARAMS "BEGINNER" [])
    ∧ (∀ p sl, alistGet Settings.MOCK_USER_PROFILES user_id = some p →
        p.skill_level = some sl →
        Settings.SKILL_LEVELS.contains (stripStr (upperStr sl)) = false →
        UserProfile.resolve_skill user_id = alistGetD Settings.SKILL_PARAMS "BEGINNER" [])
    ∧ (∀ p sl, alistGet Settings.MOCK_USER_PROFILES user_id = some p →
        p.skill_level = some sl → sl ≠ "" →
        Settings.SKILL_LEVELS.contains (stripStr (upperStr sl)) = true →
        UserProfile.get_user_skill_level user_id = stripStr (upperStr sl)) := by
  have hbeg : UserProfile.get_skill_based_params "BEGINNER"
      = alistGetD Settings.SKILL_PARAMS "BEGINNER" [] := by decide
  have hlevel : ∀ (h : user_id ≠ ""),
      UserProfile.get_user_skill_level user_id
        = (match alistGet Settings.MOCK_USER_PROFILES user_id with
           | none => UserProfile.DEFAULT_SKILL_LEVEL
           | some user_profile =>
              match user_profile.skill_level with
              | none => UserProfile.DEFAULT_SKILL_LEVEL
              | some skill_level =>
                  if skill_level = "" then UserProfile.DEFAULT_SKILL_LEVEL
                  else
                    if Settings.SKILL_LEVELS.contains (stripStr (upperStr skill_level)) then
                      stripStr (upperStr skill_level)
                    else UserProfile.DEFAULT_SKILL_LEVEL) := by
    intro h
    unfold UserProfile.get_user_skill_level
    rw [if_neg h]
  refine ⟨?_, ?_, ?_, ?_, ?_⟩
  · intro h
    subst h
    exact hbeg
  · intro h
    by_cases he : user_id = ""
    · subst he
      exact hbeg
    · show UserProfile.get_skill_based_params (UserProfile.get_user_skill_level user_id) = _
      rw [hlevel he, h]
      exact hbeg
  · intro p hp hsl
    by_cases he : user_id = ""
    · subst he
      exact hbeg
    · show UserProfile.get_skill_based_params (UserProfile.get_user_skill_level user_id) = _
      rw [hlevel he, hp]
      dsimp only
      rcases hsl with hsl | hsl <;> rw [hsl]
      · exact hbeg
      · dsimp only
        rw [if_pos rfl]
        exact hbeg
  · intro p sl hp hsl hc
    by_cases he : user_id = ""
    · subst he
      exact hbeg
    · show UserProfile.get_skill_based_params (UserProfile.get_user_skill_level user_id) = _
      rw [hlevel he, hp]
      dsimp only
      rw [hsl]
      dsimp only
      by_cases hsle : sl = ""
      · rw [if_pos hsle]
        exact hbeg
      · rw [if_neg hsle, if_neg (by simpa using hc)]
        exact hbeg
  · intro p sl hp hsl hne hc
    have he : user_id ≠ "" := by
      intro h
      rw [h] at hp
      have hnone : alistGet Settings.MOCK_USER_PROFILES "" = none := by decide
      rw [hnone] at hp
      exact Option.noConfusion hp
    rw [hlevel he, hp]
    dsimp only
    rw [hsl]
    dsimp only
    rw [if_neg hne, if_pos (by simpa using hc)]

/-- C7 witness: the empty id, an unknown id, and the profile lacking a tier
all resolve to the BEGINNER parameter entry. -/
theorem spec_c7_witness :
    UserProfile.resolve_skill "" = alistGetD Settings.SKILL_PARAMS "BEGINNER" []
    ∧ UserProfile.resolve_skill "user999" = alistGetD Settings.SKILL_PARAMS "BEGINNER" []
    ∧ UserProfile.resolve_skill "user003" = alistGetD Settings.SKILL_PARAMS "BEGINNER" [] :=
  ⟨(spec_c7_skill_resolution "").1 rfl,
   (spec_c7_skill_resolution "user999").2.1 (by decide),
   (spec_c7_skill_resolution "user003").2.2.1 { name := "Charlie", skill_level := none }
     (by decide) (Or.inl rfl)⟩

/-- C10: the static skill table stores the guidance fragment under the key
system_prompt_addon and has no skill_level_addon key, while the pipeline reads
the fragment with key skill_level_addon defaulting to the empty string, so the
fragment passed to the assembler is empty for every skill level and user, and
a pipeline-assembled system prompt (addon empty) contains no skill-guidance
block. -/
theorem spec_c10_skill_addon_key_mismatch :
    ((Settings.SKILL_PARAMS.map (fun kv => kv.2)).all
      (fun d2 => (alistGet d2 "system_prompt_addon").isSome
        && (alistGet d2 "skill_level_addon").isNone)) = true
    ∧ (∀ skill_level, UserProfile.readSkillAddon
        (UserProfile.get_skill_based_params skill_level) = "")
    ∧ (∀ user_id, UserProfile.readSkillAddon (UserProfile.resolve_skill user_id) = "")
    ∧ (∀ up r p rt,
        PromptEngineering.format_prompt_pqr up "" r p rt
          = (joinSep "\n" ((
              [if p = "" then Settings.DEFAULT_PERSONA else p]
              ++ (if r.rag_context ≠ "" ∧ r.rag_context ≠ Rag.NO_CONTEXT then
                    ["\n--- Relevant Context ---", r.rag_context,
                     "Use the context above to inform your response."]
                  else [])
              ++ ["\n--- Restrictions ---",
                  replaceStr (if rt = "" then Settings.RESTRICTIONS_TEMPLATE else rt) "[topic]"
                    (r.matched_topics.headD "general banking")]).filter (fun s => s ≠ "")),
             up)) := by
  have haddon : ∀ k, UserProfile.readSkillAddon (alistGetD Settings.SKILL_PARAMS k []) = "" := by
    intro k
    have hall : Settings.SKILL_PARAMS.all
        (fun kv => (alistGet kv.2 "skill_level_addon").isNone) = true := by decide
    cases hf : Settings.SKILL_PARAMS.find? (fun kv => kv.1 == k) with
    | none => simp [alistGetD, alistGet, hf, UserProfile.readSkillAddon]
    | some pair =>
        have hmem := List.mem_of_find?_eq_some hf
        have hnone : alistGet pair.2 "skill_level_addon" = none :=
          Option.isNone_iff_eq_none.mp (List.all_eq_true.mp hall _ hmem)
        have hgd : alistGetD Settings.SKILL_PARAMS k [] = pair.2 := by
          simp [alistGetD, alistGet, hf]
        rw [hgd]
        simp [UserProfile.readSkillAddon, hnone]
  have hparams : ∀ skill_level, UserProfile.readSkillAddon
      (UserProfile.get_skill_based_params skill_level) = "" := by
    intro sl
    unfold UserProfile.get_skill_based_params
    dsimp only
    by_cases h : Settings.SKILL_LEVELS.contains
        (if sl = "" then "" else upperStr (stripStr sl)) = true
    · rw [if_pos h]
      exact haddon _
    · rw [if_neg h]
      exact haddon _
  refine ⟨by decide, hparams, fun uid => hparams _, ?_⟩
  intro up r p rt
  unfold PromptEngineering.format_prompt_pqr
  simp

/-- C9 counterexample: on the subtask deploy the model as a prediction API
with the ai_ml domain detected, the code returns deploy through a hard-coded
special case, while the domain taxonomy — which the claim says is checked
first — yields model. -/
theorem spec_c9_counterexample :
    Domain.azure_classify_subtask "Deploy the model as a prediction API"
        (Domain.detect_domain_specialization "a machine learning task") = "deploy"
    ∧ (Domain.detect_domain_specialization "a machine learning task").map
        (fun di => Domain.taxonomyLookup di.subtasks "Deploy the model as a prediction API")
      = some (some "model")
    ∧ ("deploy" : String) ≠ "model" := by
  refine ⟨by decide, by decide, by decide⟩

/-- C9 as amended: azure subtask classification first applies two hard-coded
special cases (document the system architecture yields document, deploy the
model as a prediction api yields deploy), then checks the domain taxonomy in
order by substring match, then the generic taxonomy document, research,
implement, design, evaluate, optimize (with no data type), and returns the
terminal type execute on a total miss; the mock-side classifier instead uses
a fixed five-entry chain (research, develop, design, write, data-science)
ignoring the domain profile, with terminal type default. -/
theorem spec_c9_subtask_classification (s : String) (d : Option Domain.DomainInfo) :
    Domain.azure_classify_subtask s d = Domain.azure_subtask_amended s d
    ∧ Domain.mock_classify_subtask s d = Domain.mock_subtask_amended s := by
  constructor
  · unfold Domain.azure_classify_subtask Domain.azure_subtask_amended
    dsimp only
    by_cases h1 : containsStr (lowerStr s) "document the system architecture" = true
    · rw [if_pos h1, if_pos h1]
    · rw [if_neg h1, if_neg h1]
      by_cases h2 : containsStr (lowerStr s) "deploy the model as a prediction api" = true
      · rw [if_pos h2, if_pos h2]
      · rw [if_neg h2, if_neg h2]
        cases d with
        | none =>
            dsimp only [Option.bind]
            cases hg : Domain.generic_subtasks.find?
                (fun st => st.2.any (fun p => containsStr (lowerStr s) p)) with
            | some st => simp [Domain.taxonomyLookup, hg]
            | none => simp [Domain.taxonomyLookup, hg]
        | some di =>
            dsimp only [Option.bind]
            cases hf : di.subtasks.find?
                (fun st => st.2.any (fun p => containsStr (lowerStr s) p)) with
            | some st => simp [Domain.taxonomyLookup, hf]
            | none =>
                cases hg : Domain.generic_subtasks.find?
                    (fun st => st.2.any (fun p => containsStr (lowerStr s) p)) with
                | some st => simp [Domain.taxonomyLookup, hf, hg]
                | none => simp [Domain.taxonomyLookup, hf, hg]
  · unfold Domain.mock_classify_subtask Domain.mock_subtask_amended
    dsimp only
    by_cases h1 : (["research", "analyze", "study", "investigate"].any
        (fun t => containsStr (lowerStr s) t)) = true
    · simp [Domain.taxonomyLookup, List.find?, h1]
    · by_cases h2 : (["implement", "build", "code", "develop", "create"].any
          (fun t => containsStr (lowerStr s) t)) = true
      · simp [Domain.taxonomyLookup, List.find?, h1, h2]
      · by_cases h3 : (["design", "sketch", "prototype"].any
            (fun t => containsStr (lowerStr s) t)) = true
        · simp [Domain.taxonomyLookup, List.find?, h1, h2, h3]
        · by_cases h4 : (["write", "draft", "document"].any
              (fun t => containsStr (lowerStr s) t)) = true
          · simp [Domain.taxonomyLookup, List.find?, h1, h2, h3, h4]
          · by_cases h5 : (["train", "model", "data"].any
                (fun t => containsStr (lowerStr s) t)) = true
            · simp [Domain.taxonomyLookup, List.find?, h1, h2, h3, h4, h5]
            · simp [Domain.taxonomyLookup, List.find?, h1, h2, h3, h4, h5]

/-- C5: for every retrieval result whose combined context is nonempty (the
retriever produces either the sentinel or a nonempty aggregation), the
assembled system prompt is exactly the claimed fixed-order assembly — persona,
skill-guidance block only when the fragment is nonempty, context block with
one use-this-context line only when non-sentinel, restrictions block always
with the placeholder substituted by the first matched topic or the generic
phrase — and the returned user prompt is the original query unchanged. -/
theorem spec_c5_pqr_assembly (user_prompt skill_level_addon : String)
    (rag_result : Rag.RagResult) (persona restrictions_template : String)
    (h : rag_result.rag_context ≠ "") :
    PromptEngineering.format_prompt_pqr user_prompt skill_level_addon rag_result
        persona restrictions_template
      = (PromptEngineering.pqr_claim_assembly skill_level_addon rag_result
          persona restrictions_template, user_prompt) := by
  unfold PromptEngineering.format_prompt_pqr PromptEngineering.pqr_claim_assembly
  simp [h]

/-- C5 witness: a nonempty-context retrieval result assembled concretely. -/
theorem spec_c5_witness :
    ("Topic: t\nContext: c" : String) ≠ ""
    ∧ PromptEngineering.format_prompt_pqr "query" "addon"
        { rag_context := "Topic: t\nContext: c", offers_by_topic := [],
          docs_by_topic := [], matched_topics := ["t"] } "" ""
      = (PromptEngineering.pqr_claim_assembly "addon"
          { rag_context := "Topic: t\nContext: c", offers_by_topic := [],
            docs_by_topic := [], matched_topics := ["t"] } "" "", "query") :=
  ⟨by decide, spec_c5_pqr_assembly "query" "addon" _ "" "" (by decide)⟩

/-- C3: whenever no topic of the knowledge base matches the input keywords
(the empty keyword list included), the retrieval result is the sentinel
combined context together with an empty matched-topic list and empty
offers-by-topic and docs-by-topic maps. -/
theorem spec_c3_no_match_sentinel (keywords : List String) (db : Rag.RagDb)
    (h : Rag.matchedAux (Rag.entryMatchesModel (Rag.processedKeywords keywords)) [] db = []) :
    Rag.lookupModel keywords db
      = { rag_context := Rag.NO_CONTEXT, offers_by_topic := [],
          docs_by_topic := [], matched_topics := [] } := by
  unfold Rag.lookupModel
  simp [h]

/-- C3 witness: the empty keyword list matches nothing in the embedded test
knowledge base and yields the sentinel result. -/
theorem spec_c3_witness :
    Rag.matchedAux (Rag.entryMatchesModel (Rag.processedKeywords [])) [] Rag.testDb = []
    ∧ Rag.lookupModel [] Rag.testDb
      = { rag_context := Rag.NO_CONTEXT, offers_by_topic := [],
          docs_by_topic := [], matched_topics := [] } :=
  ⟨by decide, spec_c3_no_match_sentinel [] Rag.testDb (by decide)⟩

/-- C1: the retrieval result of `rag.lookup` carries all stored offers and
related docs of the matched topic when exactly one topic matches, exactly the
first 2 stored entries of each matched topic when two match, exactly the
first 1 when three or more match, and for every matched-topic count the full
context text of every matched topic is included, aggregated in
knowledge-base table order. -/
theorem spec_c1_retrieval_truncation (db : Rag.RagDb) (keywords : List String) :
    ((Rag.matchedEntries keywords db).length = 1 →
        (Rag.lookup keywords db).offers
            = (Rag.matchedEntries keywords db).flatMap (fun te => te.2.offers)
        ∧ (Rag.lookup keywords db).related_docs
            = (Rag.matchedEntries keywords db).flatMap (fun te => te.2.related_docs))
    ∧ ((Rag.matchedEntries keywords db).length = 2 →
        (Rag.lookup keywords db).offers
            = (Rag.matchedEntries keywords db).flatMap (fun te => te.2.offers.take 2)
        ∧ (Rag.lookup keywords db).related_docs
            = (Rag.matchedEntries keywords db).flatMap (fun te => te.2.related_docs.take 2))
    ∧ (3 ≤ (Rag.matchedEntries keywords db).length →
        (Rag.lookup keywords db).offers
            = (Rag.matchedEntries keywords db).flatMap (fun te => te.2.offers.take 1)
        ∧ (Rag.lookup keywords db).related_docs
            = (Rag.matchedEntries keywords db).flatMap (fun te => te.2.related_docs.take 1))
    ∧ (∀ te ∈ Rag.matchedEntries keywords db,
        containsStr (Rag.lookup keywords db).context te.2.context = true)
    ∧ (Rag.lookup keywords db).context
        = joinSep "\n" (((Rag.matchedEntries keywords db).map
            (fun te => te.2.context)).filter (fun c => c ≠ "")) := by
  by_cases hdb : db.isEmpty = true
  · have hdbnil : db = [] := by simpa using hdb
    subst hdbnil
    have hm : Rag.matchedEntries keywords [] = [] := rfl
    have hr : Rag.lookup keywords [] = ⟨"", [], [], []⟩ := rfl
    rw [hm, hr]
    refine ⟨fun h => by simp at h, fun h => by simp at h, fun h => by simp at h,
      fun te hte => absurd hte (List.not_mem_nil te), rfl⟩
  · by_cases hkw : keywords.isEmpty = true
    · have hkwnil : keywords = [] := by simpa using hkw
      subst hkwnil
      have hm : Rag.matchedEntries [] db = [] := matchedEntries_nil_keywords db
      have hr : Rag.lookup [] db = ⟨"", [], [], []⟩ := by
        unfold Rag.lookup
        rw [if_neg hdb]
        rfl
      rw [hm, hr]
      refine ⟨fun h => by simp at h, fun h => by simp at h, fun h => by simp at h,
        fun te hte => absurd hte (List.not_mem_nil te), rfl⟩
    · have hl := lookup_main keywords db hdb hkw
      refine ⟨?_, ?_, ?_, ?_, ?_⟩
      · intro h1
        have hlim : Rag.limitFor (Rag.matchedEntries keywords db).length = none := by
          rw [h1]
          rfl
        rw [hl]
        dsimp only
        rw [hlim]
        exact ⟨rfl, rfl⟩
      · intro h2
        have hlim : Rag.limitFor (Rag.matchedEntries keywords db).length = some 2 := by
          rw [h2]
          rfl
        rw [hl]
        dsimp only
        rw [hlim]
        exact ⟨rfl, rfl⟩
      · intro h3
        have hlim : Rag.limitFor (Rag.matchedEntries keywords db).length = some 1 := by
          unfold Rag.limitFor
          rw [if_neg (by simp; omega), if_pos h3]
        rw [hl]
        dsimp only
        rw [hlim]
        exact ⟨rfl, rfl⟩
      · intro te hte
        rw [hl]
        dsimp only
        by_cases hc : te.2.context = ""
        · rw [hc]
          exact containsStr_empty_pat _
        · exact containsStr_joinSep _ _ _
            (List.mem_filter.mpr ⟨List.mem_map_of_mem _ hte, by simp [hc]⟩)
      · rw [hl]

/-- C2 helper: the classifier equals the claimed classification for every
table. -/
theorem classify_with_eq_claim (cls : List (String × List String)) (text : String) :
    Classifier.classify_request_with cls text = Classifier.classify_claim cls text := by
  unfold Classifier.classify_request_with Classifier.classify_claim
  dsimp only
  have hcond : ((Classifier.complex_terms.any (fun t => containsStr (lowerStr text) t)
      && decide ((splitWs (lowerStr text)).length > 15))
      || decide (1 < ((cls.map (fun c => (c.1, Classifier.countMatches c.2 (lowerStr text)))).filter
          (fun x => decide (0 < x.2))).length)) = true
      ↔ ((Classifier.complex_terms.any (fun t => containsStr (lowerStr text) t) = true
          ∧ (splitWs text).length > 15)
        ∨ 1 < ((cls.map (fun c => (c.1, Classifier.countMatches c.2 (lowerStr text)))).filter
            (fun x => decide (0 < x.2))).length) := by
    rw [splitWs_lowerStr_length]
    simp [Bool.or_eq_true, Bool.and_eq_true, decide_eq_true_iff]
  by_cases hcplx : ((Classifier.complex_terms.any (fun t => containsStr (lowerStr text) t) = true
      ∧ (splitWs text).length > 15)
    ∨ 1 < ((cls.map (fun c => (c.1, Classifier.countMatches c.2 (lowerStr text)))).filter
        (fun x => decide (0 < x.2))).length)
  · rw [if_pos (hcond.mpr hcplx), if_pos hcplx]
    cases hnz : (cls.map (fun c => (c.1, Classifier.countMatches c.2 (lowerStr text)))).filter
        (fun x => decide (0 < x.2)) with
    | nil => rfl
    | cons x xs =>
        have hmem : ∀ z ∈ (x :: xs), 0 < z.2 := by
          intro z hz
          have hz2 : z ∈ (cls.map (fun c => (c.1, Classifier.countMatches c.2 (lowerStr text)))).filter
              (fun x => decide (0 < x.2)) := by
            rw [hnz]
            exact hz
          exact of_decide_eq_true (List.mem_filter.mp hz2).2
        rw [find_max_eq_pick xs x (hmem x (by simp)) (fun z hz => hmem z (by simp [hz]))]
  · rw [if_neg (fun h => hcplx (hcond.mp h)), if_neg hcplx]
    cases hnz : (cls.map (fun c => (c.1, Classifier.countMatches c.2 (lowerStr text)))).filter
        (fun x => decide (0 < x.2)) with
    | nil => rfl
    | cons x xs => rfl

/-- C2: for both request classifiers (azure and mock tables), the request is
marked complex exactly when a scale-indicator phrase is present and the text
has more than 15 words or more than one category has a nonzero trigger-match
count; a complex request resolves to the first declared category of highest
count (declared order breaks ties, so write beats develop on equal counts), a
complex request with no matching category resolves to the designated
data-science category, and a non-complex request resolves to the first
declared category with a nonzero count, else the default category. -/
theorem spec_c2_request_classification (text : String) :
    Classifier.azure_classify_request text
        = Classifier.classify_claim Classifier.azure_request_classifiers text
    ∧ Classifier.mock_classify_request text
        = Classifier.classify_claim Classifier.mock_request_classifiers text :=
  ⟨classify_with_eq_claim Classifier.azure_request_classifiers text,
   classify_with_eq_claim Classifier.mock_request_classifiers text⟩

/-- C1 witness: two matched topics of the embedded test knowledge base give
exactly the first two offers and documents of each. -/
theorem spec_c1_witness :
    (Rag.matchedEntries ["one", "beta"] Rag.testDb).length = 2
    ∧ (Rag.lookup ["one", "beta"] Rag.testDb).offers
        = (Rag.matchedEntries ["one", "beta"] Rag.testDb).flatMap
            (fun te => te.2.offers.take 2)
    ∧ (Rag.lookup ["one", "beta"] Rag.testDb).offers
        = ["Offer 1a", "Offer 1b", "Offer 2a", "Offer 2b"] :=
  ⟨by decide,
   ((spec_c1_retrieval_truncation Rag.testDb ["one", "beta"]).2.1 (by decide)).1,
   by decide⟩

end AgenticSkeleton
